import Mathlib

/-!
Verification development for the log-analysis core of the
`databricks_log_agent` repository (`src/utils/log_analyzer.py`).

The Python core is shallowly embedded: text is `List Char`, Python floats
are modelled as exact rationals (the type `Q` below; every constant in the
source is a small decimal, so rational arithmetic tracks the float
computation exactly on all inputs used in the theorems below), Python `dict`s are insertion-ordered association
lists, and the `ValueError` raised by `range(0, n, 0)` when
`chunk_size // 100 == 0` is modelled by `Option` (`none` = the exception
escaping).  The regular-expression patterns of the pattern catalog are kept
as their literal source strings; a small regex engine (case-insensitive
backtracking matcher with Python's leftmost / greedy preference and
non-overlapping `findall` counting) gives them semantics.
-/

abbrev Str := List Char

/-- The whitespace characters recognised by Python's `str.split()` /
`str.strip()` on ASCII text. -/
def isSpaceChar (c : Char) : Bool :=
  c = ' ' || c = '\t' || c = '\n' || c = '\x0d' || c = '\x0b' || c = '\x0c'

/-- ASCII lower-casing, as performed by `str.lower()` / `re.IGNORECASE`. -/
def lowerChar (c : Char) : Char :=
  if 'A' ≤ c ∧ c ≤ 'Z' then Char.ofNat (c.toNat + 32) else c

/-- ASCII upper-casing. -/
def upperChar (c : Char) : Char :=
  if 'a' ≤ c ∧ c ≤ 'z' then Char.ofNat (c.toNat - 32) else c

/-- Word characters for `\b` and `\w` (Python `re` on ASCII text). -/
def isWordChar (c : Char) : Bool :=
  ('a' ≤ c && c ≤ 'z') || ('A' ≤ c && c ≤ 'Z') || ('0' ≤ c && c ≤ '9') || c = '_'

/-- Helper for `pyWords`: accumulates the current word (in reverse). -/
def wordsAux : Str → Str → List Str
  | [], cur => if cur.isEmpty then [] else [cur.reverse]
  | c :: rest, cur =>
    if isSpaceChar c then
      if cur.isEmpty then wordsAux rest [] else cur.reverse :: wordsAux rest []
    else wordsAux rest (c :: cur)

/-- Python `text.split()`: split on runs of whitespace, dropping empties. -/
def pyWords (s : Str) : List Str := wordsAux s []

/-- Python `'\n'.join`-style join of pieces with a separator. -/
def joinWith (sep : Str) : List Str → Str
  | [] => []
  | [x] => x
  | x :: y :: rest => x ++ sep ++ joinWith sep (y :: rest)

/-- Python `content.split('\n')`: split at newlines, keeping empty pieces
(so `''.split('\n') == ['']`). -/
def splitNl : Str → List Str
  | [] => [[]]
  | c :: rest =>
    if c = '\n' then [] :: splitNl rest
    else
      match splitNl rest with
      | w :: ws => (c :: w) :: ws
      | [] => [[c]]

/-- `len(s.strip()) == 0`: every character is whitespace. -/
def isBlank (s : Str) : Bool := s.all isSpaceChar

/-! ### Regular expressions

AST, backtracking matcher and a parser for the fragment of Python `re`
syntax used by the pattern catalog: literals, `.` (any char except
newline), escapes `\s \d \w \b \n \. \( \) \$`, character classes with
ranges, non-capturing groups `(?:a|b)`, and the greedy postfix operators
`* + ?`.  Every pattern in the source is matched with `re.IGNORECASE`
(and carries a redundant `(?i)` prefix), so matching lower-cases both
sides. -/

inductive ClsItem where
  | single (c : Char)
  | range (lo hi : Char)
deriving DecidableEq

inductive RE where
  | eps
  | lit (c : Char)
  | dot
  | cls (items : List ClsItem)
  | wb
  | seq (a b : RE)
  | alt (a b : RE)
  | star (r : RE)
deriving DecidableEq

/-- Does a (lower-cased) input character fall in one class item?  Under
`re.IGNORECASE` a character matches a class if the character itself, its
lower-case or its upper-case form is in the class. -/
def clsItemMatch (it : ClsItem) (c : Char) : Bool :=
  match it with
  | .single d => c = d || lowerChar c = d || upperChar c = d
  | .range lo hi =>
    (lo ≤ c && c ≤ hi) || (lo ≤ lowerChar c && lowerChar c ≤ hi) ||
      (lo ≤ upperChar c && upperChar c ≤ hi)

/-- Structural size of a regex, used to bound backtracking depth. -/
def reSize : RE → Nat
  | .eps => 1
  | .lit _ => 1
  | .dot => 1
  | .cls _ => 1
  | .wb => 1
  | .seq a b => reSize a + reSize b + 1
  | .alt a b => reSize a + reSize b + 1
  | .star r => reSize r + 1

/-- Backtracking matcher in continuation-passing style.  `prev` is the
character just before the current position (for `\b`).  Alternatives are
tried left-first and `star` is greedy, matching Python's preference order,
so the first success is the match Python's engine produces.  A `star`
iteration must consume at least one character (the catalog's star bodies
always do, so this does not change the semantics; it only guarantees
termination).  `fuel` bounds the call depth and is instantiated large
enough at the top level. -/
def mrun : Nat → RE → Option Char → Str →
    (Option Char → Str → Option (Option Char × Str)) → Option (Option Char × Str)
  | 0, _, _, _, _ => none
  | _ + 1, .eps, prev, s, k => k prev s
  | _ + 1, .lit c, _, s, k =>
    match s with
    | [] => none
    | a :: rest => if lowerChar a = lowerChar c then k (some a) rest else none
  | _ + 1, .dot, _, s, k =>
    match s with
    | [] => none
    | a :: rest => if a = '\n' then none else k (some a) rest
  | _ + 1, .cls items, _, s, k =>
    match s with
    | [] => none
    | a :: rest => if items.any (fun it => clsItemMatch it a) then k (some a) rest else none
  | _ + 1, .wb, prev, s, k =>
    let before := match prev with | none => false | some c => isWordChar c
    let after := match s with | [] => false | a :: _ => isWordChar a
    if before ≠ after then k prev s else none
  | fuel + 1, .seq a b, prev, s, k =>
    mrun fuel a prev s (fun p' s' => mrun fuel b p' s' k)
  | fuel + 1, .alt a b, prev, s, k =>
    match mrun fuel a prev s k with
    | some res => some res
    | none => mrun fuel b prev s k
  | fuel + 1, .star r, prev, s, k =>
    match mrun fuel r prev s
        (fun p' s' => if s'.length < s.length then mrun fuel (.star r) p' s' k else none) with
    | some res => some res
    | none => k prev s

/-- Preferred match of `r` anchored at the current position: returns the
character before and the remaining suffix after the match. -/
def matchAt (r : RE) (prev : Option Char) (s : Str) : Option (Option Char × Str) :=
  mrun ((reSize r + 2) * (s.length + 2)) r prev s (fun p rest => some (p, rest))

/-- Number of non-overlapping matches found scanning left to right, as
`len(re.findall(pattern, content))`: at each position try the preferred
match; on success continue after it (after a zero-width match, advance by
one character). -/
def scanCount : Nat → RE → Option Char → Str → Nat
  | 0, _, _, _ => 0
  | fuel + 1, r, prev, s =>
    match matchAt r prev s with
    | some (p', rest) =>
      if rest.length < s.length then 1 + scanCount fuel r p' rest
      else
        match s with
        | [] => 1
        | c :: s' => 1 + scanCount fuel r (some c) s'
    | none =>
      match s with
      | [] => 0
      | c :: s' => scanCount fuel r (some c) s'

def reCount (r : RE) (s : Str) : Nat := scanCount (s.length + 1) r none s

/-! ### Parser for the pattern strings -/

/-- Parse the body of a character class up to the closing `]`. -/
def parseCls : Str → Option (List ClsItem × Str)
  | [] => none
  | ']' :: rest => some ([], rest)
  | '\\' :: c :: rest =>
    match parseCls rest with
    | some (items, r) => some (.single c :: items, r)
    | none => none
  | a :: '-' :: b :: rest =>
    if b = ']' then
      match parseCls ('-' :: b :: rest) with
      | some (items, r) => some (.single a :: items, r)
      | none => none
    else
      match parseCls rest with
      | some (items, r) => some (.range a b :: items, r)
      | none => none
  | a :: rest =>
    match parseCls rest with
    | some (items, r) => some (.single a :: items, r)
    | none => none

/-- `\s`, `\d`, `\w` as character classes. -/
def spaceItems : List ClsItem :=
  [.single ' ', .single '\t', .single '\n', .single '\x0d', .single '\x0b', .single '\x0c']

def digitItems : List ClsItem := [.range '0' '9']

def wordItems : List ClsItem :=
  [.range 'a' 'z', .range 'A' 'Z', .range '0' '9', .single '_']

/-- Translate an escape `\c`. -/
def escRE (c : Char) : RE :=
  if c = 's' then .cls spaceItems
  else if c = 'd' then .cls digitItems
  else if c = 'w' then .cls wordItems
  else if c = 'b' then .wb
  else if c = 'n' then .lit '\n'
  else if c = 't' then .lit '\t'
  else .lit c

/-- Greedy postfix operators `* + ?` (structural recursion on the input). -/
def parsePost (r : RE) : Str → RE × Str
  | '*' :: rest => parsePost (.star r) rest
  | '+' :: rest => parsePost (.seq r (.star r)) rest
  | '?' :: rest => parsePost (.alt r .eps) rest
  | s => (r, s)

mutual

/-- One atom (group, class, escape, `.` or a literal) with its postfix. -/
def parseAtom : Nat → Str → Option (RE × Str)
  | 0, _ => none
  | fuel + 1, s =>
    match s with
    | [] => none
    | '(' :: '?' :: ':' :: rest =>
      match parseAlt fuel rest with
      | some (r, ')' :: rest') => some (parsePost r rest')
      | _ => none
    | '(' :: rest =>
      match parseAlt fuel rest with
      | some (r, ')' :: rest') => some (parsePost r rest')
      | _ => none
    | '[' :: rest =>
      match parseCls rest with
      | some (items, rest') => some (parsePost (.cls items) rest')
      | none => none
    | '\\' :: c :: rest => some (parsePost (escRE c) rest)
    | '\\' :: [] => none
    | '.' :: rest => some (parsePost .dot rest)
    | c :: rest =>
      if c = ')' || c = '|' || c = '*' || c = '+' || c = '?' || c = ']' then none
      else some (parsePost (.lit c) rest)

/-- A sequence of atoms, stopping at `)` or `|` or the end. -/
def parseSeq : Nat → Str → Option (RE × Str)
  | 0, _ => none
  | fuel + 1, s =>
    match s with
    | [] => some (.eps, [])
    | ')' :: _ => some (.eps, s)
    | '|' :: _ => some (.eps, s)
    | _ =>
      match parseAtom fuel s with
      | some (r, rest) =>
        match parseSeq fuel rest with
        | some (r', rest') => some (.seq r r', rest')
        | none => none
      | none => none

/-- Alternation `a|b|c`, right-nested, left alternative preferred. -/
def parseAlt : Nat → Str → Option (RE × Str)
  | 0, _ => none
  | fuel + 1, s =>
    match parseSeq fuel s with
    | some (r, '|' :: rest) =>
      match parseAlt fuel rest with
      | some (r', rest') => some (.alt r r', rest')
      | none => none
    | some (r, rest) => some (r, rest)
    | none => none

end

/-- Compile a catalog pattern string.  The uniform `(?i)` prefix is
dropped: matching is case-insensitive throughout (the Python calls all
pass `re.IGNORECASE` as well). -/
def compileRE (pat : String) : Option RE :=
  let cs := pat.data
  let cs := if ("(?i)".data).isPrefixOf cs then cs.drop 4 else cs
  match parseAlt (2 * cs.length + 8) cs with
  | some (r, []) => some r
  | _ => none

/-- `len(re.findall(pattern, content, re.IGNORECASE))`.  An uncompilable
pattern counts as zero matches (every pattern in the catalog compiles). -/
def countPat (pat : String) (s : Str) : Nat :=
  match compileRE pat with
  | some r => reCount r s
  | none => 0

/-- Truthiness of `re.search(pattern, content, re.IGNORECASE)`: a search
hit exists iff `findall` finds at least one match. -/
def testPat (pat : String) (s : Str) : Bool := decide (0 < countPat pat s)

/-- `len(re.findall(re.escape(q), content, re.IGNORECASE))`: count of
non-overlapping literal occurrences, case-insensitive. -/
def litCount : Nat → Str → Str → Nat
  | 0, _, _ => 0
  | fuel + 1, q, s =>
    if q.isPrefixOf s then
      match q, s with
      | [], [] => 1
      | [], _ :: s' => 1 + litCount fuel [] s'
      | _, _ => 1 + litCount fuel q (s.drop q.length)
    else
      match s with
      | [] => 0
      | _ :: s' => litCount fuel q s'

def countQuery (q : String) (s : Str) : Nat :=
  litCount (s.length + 1) (q.data.map lowerChar) (s.map lowerChar)

/-! ### Python's stable `sorted(..., key=..., reverse=True)`

Modelled by decorate-sort-undecorate: pair every element with its index,
sort by (key descending, index ascending) — a strict total order on the
decorated pairs, so any correct sorting algorithm yields exactly Python's
stable descending order. -/

def insertByB (lt : α → α → Bool) (x : α) : List α → List α
  | [] => [x]
  | y :: ys => if lt x y then x :: y :: ys else y :: insertByB lt x ys

def sortByB (lt : α → α → Bool) : List α → List α
  | [] => []
  | x :: xs => insertByB lt x (sortByB lt xs)

/-- `sorted(l, key=key, reverse=True)` for a strict total order `kLt` on
keys: stable descending sort. -/
def pySortedRev (kLt : κ → κ → Bool) (key : α → κ) (l : List α) : List α :=
  (sortByB (fun p q : Nat × α =>
      kLt (key q.2) (key p.2) ||
        (!kLt (key q.2) (key p.2) && !kLt (key p.2) (key q.2) && decide (p.1 < q.1)))
    l.enum).map Prod.snd

def natLtB (a b : ℕ) : Bool := decide (a < b)

/-- Python tuple comparison on `(int, int)`. -/
def natPairLtB (p q : ℕ × ℕ) : Bool :=
  decide (p.1 < q.1) || (p.1 = q.1 && decide (p.2 < q.2))

/-- Python string comparison: lexicographic by code point. -/
def strLtB : Str → Str → Bool
  | [], [] => false
  | [], _ :: _ => true
  | _ :: _, [] => false
  | a :: aa, b :: bb => if a = b then strLtB aa bb else decide (a < b)

/-- Python tuple comparison on `(str, int)` — the key used by the final
sort of `analyze_logs_iteratively`. -/
def strNatLtB (p q : String × ℕ) : Bool :=
  strLtB p.1.data q.1.data || (p.1 = q.1 && decide (p.2 < q.2))

/-! ### Exact rationals for Python's floats

Every float the analyzer computes is built from small decimal literals by
`+ - * min <`, so its value is an exact rational and float rounding never
occurs on the magnitudes involved in the theorems below.  Mathlib's `ℚ`
does not reduce in the kernel, so we use plain numerator/denominator pairs
(denominators positive by construction, values compared by
cross-multiplication — the value semantics of floats). -/

structure Q where
  num : Int
  den : Nat
deriving DecidableEq, Repr

/-- The decimal literal `n / d` (e.g. `1.3` is transcribed `q 13 10`). -/
def q (n : Int) (d : Nat) : Q := ⟨n, d⟩

def Q.ofNat (n : ℕ) : Q := ⟨n, 1⟩

def Q.add (a b : Q) : Q := ⟨a.num * b.den + b.num * a.den, a.den * b.den⟩

def Q.sub (a b : Q) : Q := ⟨a.num * b.den - b.num * a.den, a.den * b.den⟩

def Q.mul (a b : Q) : Q := ⟨a.num * b.num, a.den * b.den⟩

instance : Add Q := ⟨Q.add⟩

instance : Sub Q := ⟨Q.sub⟩

instance : Mul Q := ⟨Q.mul⟩

/-- Value comparison `a < b` (for positive denominators). -/
def Q.blt (a b : Q) : Bool := decide (a.num * b.den < b.num * a.den)

/-- Value equality `a == b` (for positive denominators). -/
def Q.qeq (a b : Q) : Bool := decide (a.num * b.den = b.num * a.den)

/-- Python's `min` (returns the first argument on ties). -/
def Q.qmin (a b : Q) : Q := if Q.blt b a then b else a

/-- The value of a `Q` as a Mathlib rational (for the order reasoning in
the proofs; never used by the embedded program itself). -/
def Q.toRat (a : Q) : ℚ := (a.num : ℚ) / (a.den : ℚ)

/-! ### Data model (`LogChunk`, `ErrorSummary`, the pattern catalog) -/

structure LogChunk where
  content : Str
  chunk_id : ℕ
  file_name : String
  log_type : String
  priority_score : Q
  error_indicators : List String
deriving DecidableEq, Repr

structure ErrorSummary where
  error_type : String
  description : String
  frequency : ℕ
  severity : String
  suggested_solution : String
  relevant_logs : List String
deriving DecidableEq, Repr

/-- One entry of the `self.error_patterns` catalog. -/
structure PatConfig where
  patterns : List String
  severity : String
  category : String
  priority : ℕ
deriving DecidableEq, Repr

abbrev Catalog := List (String × PatConfig)
/-- The pattern catalog `self.error_patterns` built in `LogAnalyzer.__init__`,
with the regex strings of the source verbatim. -/
def error_patterns : Catalog := [
  ("memory_errors",
    { patterns := [
      "(?i)outofmemoryerror",
      "(?i)java\\.lang\\.outofmemoryerror",
      "(?i)container\\s+killed.*memory",
      "(?i)executor\\s+lost.*outofmemory",
      "(?i)gc\\s+overhead\\s+limit\\s+exceeded",
      "(?i)unable\\s+to\\s+allocate\\s+.*\\s+bytes",
      "(?i)heap\\s+space\\s+exhausted",
      "(?i)metaspace\\s+out\\s+of\\s+memory",
      "(?i)direct\\s+buffer\\s+memory\\s+exceeded",
      "(?i)oom\\s+killer",
      "(?i)memory\\s+allocation\\s+failed"],
      severity := "critical", category := "Memory Management", priority := 100 }),
  ("spark_sql_errors",
    { patterns := [
      "(?i)analysisexception",
      "(?i)org\\.apache\\.spark\\.sql\\.analysisexception",
      "(?i)table\\s+or\\s+view\\s+not\\s+found",
      "(?i)cannot\\s+resolve.*given\\s+input\\s+columns",
      "(?i)column\\s+.*\\s+does\\s+not\\s+exist",
      "(?i)path\\s+does\\s+not\\s+exist",
      "(?i)schema\\s+mismatch",
      "(?i)invalid\\s+column\\s+reference",
      "(?i)ambiguous\\s+reference\\s+to\\s+fields",
      "(?i)unresolved\\s+attribute",
      "(?i)unsupported\\s+data\\s+type"],
      severity := "high", category := "SQL Analysis", priority := 90 }),
  ("spark_execution_errors",
    { patterns := [
      "(?i)sparkexception",
      "(?i)org\\.apache\\.spark\\.sparkexception",
      "(?i)job\\s+\\d+\\s+failed",
      "(?i)stage\\s+\\d+\\s+failed",
      "(?i)task\\s+failed",
      "(?i)executor\\s+\\d+\\s+lost",
      "(?i)driver\\s+stacktrace",
      "(?i)application\\s+failed",
      "(?i)shuffle\\s+fetch\\s+failed",
      "(?i)broadcast\\s+failed",
      "(?i)rdd\\s+operation\\s+failed"],
      severity := "high", category := "Spark Execution", priority := 85 }),
  ("application_errors",
    { patterns := [
      "(?i)\\b(?:exception|error|failure|fatal)\\b.*\\n?.*\\bat\\s+[a-zA-Z0-9_.$]+\\.[a-zA-Z0-9_$]+\\(",
      "(?i)\\bexception\\s+in\\s+thread\\b",
      "(?i)caused\\s+by:.*exception",
      "(?i)\\berror\\s*:\\s*\\w+",
      "(?i)\\bfatal\\s+error\\b",
      "(?i)\\bcritical\\s+error\\b",
      "(?i)\\bsevere\\s+error\\b",
      "(?i)\\bunhandled\\s+exception\\b",
      "(?i)\\bstack\\s+overflow\\b",
      "(?i)\\bsegmentation\\s+fault\\b",
      "(?i)\\bcore\\s+dumped\\b"],
      severity := "high", category := "Application Runtime", priority := 80 }),
  ("io_errors",
    { patterns := [
      "(?i)filenotfoundexception",
      "(?i)ioexception",
      "(?i)no\\s+such\\s+file\\s+or\\s+directory",
      "(?i)permission\\s+denied",
      "(?i)access\\s+denied",
      "(?i)disk\\s+space\\s+exhausted",
      "(?i)no\\s+space\\s+left\\s+on\\s+device",
      "(?i)read\\s+timed\\s+out",
      "(?i)write\\s+failed",
      "(?i)cannot\\s+open\\s+file",
      "(?i)file\\s+is\\s+corrupted",
      "(?i)bad\\s+file\\s+descriptor",
      "(?i)resource\\s+temporarily\\s+unavailable"],
      severity := "high", category := "File I/O", priority := 75 }),
  ("network_errors",
    { patterns := [
      "(?i)connection\\s+refused",
      "(?i)connection\\s+timeout",
      "(?i)connection\\s+reset",
      "(?i)unknownhostexception",
      "(?i)sockettimeoutexception",
      "(?i)network\\s+is\\s+unreachable",
      "(?i)host\\s+is\\s+unreachable",
      "(?i)broken\\s+pipe",
      "(?i)connection\\s+aborted",
      "(?i)ssl\\s+handshake\\s+failed",
      "(?i)certificate\\s+error",
      "(?i)dns\\s+resolution\\s+failed"],
      severity := "medium", category := "Network", priority := 70 }),
  ("serialization_errors",
    { patterns := [
      "(?i)serializationexception",
      "(?i)notserializableexception",
      "(?i)task\\s+not\\s+serializable",
      "(?i)classnotfoundexception",
      "(?i)classcastexception",
      "(?i)nosuchmethodexception",
      "(?i)incompatible\\s+types",
      "(?i)type\\s+mismatch",
      "(?i)serialization\\s+failed",
      "(?i)deserialization\\s+failed"],
      severity := "high", category := "Serialization", priority := 65 }),
  ("config_errors",
    { patterns := [
      "(?i)configuration\\s+error",
      "(?i)invalid\\s+configuration",
      "(?i)missing\\s+configuration",
      "(?i)property\\s+not\\s+found",
      "(?i)environment\\s+variable\\s+not\\s+set",
      "(?i)classpath\\s+error",
      "(?i)library\\s+not\\s+found",
      "(?i)dependency\\s+conflict",
      "(?i)version\\s+mismatch",
      "(?i)unsupported\\s+version"],
      severity := "medium", category := "Configuration", priority := 60 }),
  ("auth_errors",
    { patterns := [
      "(?i)authentication\\s+failed",
      "(?i)authorization\\s+failed",
      "(?i)access\\s+token\\s+expired",
      "(?i)invalid\\s+credentials",
      "(?i)permission\\s+denied",
      "(?i)unauthorized\\s+access",
      "(?i)forbidden\\s+access",
      "(?i)ssl\\s+certificate\\s+error",
      "(?i)kerberos\\s+authentication\\s+failed",
      "(?i)security\\s+exception"],
      severity := "high", category := "Authentication & Security", priority := 55 }),
  ("database_errors",
    { patterns := [
      "(?i)sql\\s+exception",
      "(?i)database\\s+connection\\s+failed",
      "(?i)table\\s+does\\s+not\\s+exist",
      "(?i)duplicate\\s+key\\s+value",
      "(?i)constraint\\s+violation",
      "(?i)deadlock\\s+detected",
      "(?i)lock\\s+timeout",
      "(?i)transaction\\s+failed",
      "(?i)rollback\\s+failed",
      "(?i)connection\\s+pool\\s+exhausted"],
      severity := "high", category := "Database", priority := 50 }),
  ("performance_issues",
    { patterns := [
      "(?i)performance\\s+degradation",
      "(?i)slow\\s+query",
      "(?i)timeout\\s+exceeded",
      "(?i)resource\\s+exhausted",
      "(?i)thread\\s+pool\\s+exhausted",
      "(?i)cpu\\s+usage\\s+high",
      "(?i)gc\\s+pressure",
      "(?i)long\\s+running\\s+task",
      "(?i)bottleneck\\s+detected",
      "(?i)queue\\s+full"],
      severity := "medium", category := "Performance", priority := 45 }),
  ("critical_keywords",
    { patterns := [
      "(?i)\\bfailed\\b.*\\berror\\b",
      "(?i)\\berror\\b.*\\bfailed\\b",
      "(?i)\\bfatal\\b.*\\b(?:error|exception|failure)\\b",
      "(?i)\\bcritical\\b.*\\b(?:error|exception|failure)\\b",
      "(?i)\\bsevere\\b.*\\b(?:error|exception|failure)\\b",
      "(?i)\\baborted\\b.*\\b(?:error|exception|failure)\\b",
      "(?i)\\bpanic\\b.*\\b(?:error|exception|failure)\\b",
      "(?i)\\bcrash\\b.*\\b(?:error|exception|failure)\\b"],
      severity := "medium", category := "Critical Keywords", priority := 40 })
]

/-- The remedy catalog `self.solution_templates` built in `LogAnalyzer.__init__`. -/
def solution_templates : List (String × List String) := [
  ("Memory Management",
    [ "Increase driver memory: --driver-memory 8g or spark.driver.memory=8g",
      "Increase executor memory: --executor-memory 4g or spark.executor.memory=4g",
      "Optimize partitioning to reduce data skew: df.repartition(200) or df.coalesce(100)",
      "Review broadcast join thresholds: spark.sql.adaptive.autoBroadcastJoinThreshold",
      "Use efficient caching strategies: df.cache().count() before reuse",
      "Consider spill-to-disk settings: spark.sql.adaptive.coalescePartitions.enabled=true",
      "Monitor GC settings: -XX:+UseG1GC -XX:MaxGCPauseMillis=200" ]),
  ("SQL Analysis",
    [ "Verify table/view existence: SHOW TABLES LIKE \x27table_name\x27",
      "Check column names and case sensitivity in queries",
      "Ensure proper schema qualification: database.table.column",
      "Validate data types and schema compatibility",
      "Check table permissions and access rights",
      "Use DESCRIBE EXTENDED table_name for schema details",
      "Consider using fully qualified paths for external tables" ]),
  ("Spark Execution",
    [ "Check cluster resource allocation and availability",
      "Review stage failure patterns for data skew issues",
      "Optimize shuffle operations: spark.sql.adaptive.enabled=true",
      "Consider dynamic allocation: spark.dynamicAllocation.enabled=true",
      "Monitor executor failures and restart cluster if needed",
      "Check for network issues between driver and executors",
      "Review task retry and backoff configurations" ]),
  ("Application Runtime",
    [ "Review application logs for stack traces and root cause",
      "Check for null pointer exceptions and handle edge cases",
      "Validate input data quality and schema consistency",
      "Implement proper error handling and try-catch blocks",
      "Review code for infinite loops or recursive calls",
      "Monitor resource usage and optimize algorithms",
      "Use defensive programming practices for data validation" ]),
  ("File I/O",
    [ "Verify file paths and S3 bucket permissions",
      "Check AWS credentials and IAM policies",
      "Ensure files exist at specified locations: aws s3 ls s3://bucket/path/",
      "Review file format compatibility (parquet, delta, json, csv)",
      "Check for special characters or encoding issues in file paths",
      "Monitor disk space on cluster nodes",
      "Consider using retry mechanisms for transient I/O failures" ]),
  ("Network",
    [ "Test network connectivity: ping, telnet, curl commands",
      "Check security groups and firewall rules",
      "Verify DNS resolution for external services",
      "Increase timeout values: spark.network.timeout=800s",
      "Review VPC and subnet configurations",
      "Check for proxy or NAT gateway issues",
      "Monitor network latency and bandwidth utilization" ]),
  ("Serialization",
    [ "Ensure all objects in closures are serializable",
      "Use broadcast variables for large read-only data: spark.broadcast(data)",
      "Avoid capturing non-serializable objects in UDFs",
      "Consider using case classes instead of regular classes",
      "Review custom serialization implementations",
      "Check for circular references in object graphs",
      "Use @transient annotation for non-serializable fields" ]),
  ("Configuration",
    [ "Review Spark configuration settings in spark-defaults.conf",
      "Check environment variables and system properties",
      "Validate classpath and library dependencies",
      "Ensure compatible versions of Spark and libraries",
      "Review cluster initialization scripts",
      "Check for configuration conflicts between different sources",
      "Use spark.conf.get() to verify runtime configuration values" ]),
  ("Authentication & Security",
    [ "Verify AWS credentials and refresh if expired",
      "Check IAM roles and policies for required permissions",
      "Review Kerberos configuration and ticket renewal",
      "Validate SSL certificates and trust stores",
      "Ensure proper token-based authentication setup",
      "Check for expired or revoked access tokens",
      "Review security group and network ACL configurations" ]),
  ("Database",
    [ "Check database connectivity and credentials",
      "Review SQL query syntax and compatibility",
      "Monitor database connection pool settings",
      "Check for table locks and transaction conflicts",
      "Validate database schema and permissions",
      "Review indexing strategy for query performance",
      "Consider connection timeout and retry settings" ]),
  ("Performance",
    [ "Monitor cluster resource utilization (CPU, memory, I/O)",
      "Enable Spark UI and analyze job execution metrics",
      "Use adaptive query execution: spark.sql.adaptive.enabled=true",
      "Optimize data formats: use Parquet or Delta Lake",
      "Review partitioning strategy for large datasets",
      "Consider data locality and shuffle optimization",
      "Implement query caching for repeated operations" ]),
  ("Critical Keywords",
    [ "Review detailed error messages and stack traces",
      "Check system logs for additional context",
      "Identify patterns in error occurrence timing",
      "Implement comprehensive logging and monitoring",
      "Review recent changes that might have caused issues",
      "Consider rollback to last known good configuration",
      "Escalate to appropriate support channels if needed" ])
]

/-! ### The analyzer -/

/-- The `LogAnalyzer` state: the two config values read in `__init__`
plus the two catalogs.  `_analyze_iteration` temporarily replaces
`error_patterns`. -/
structure LogAnalyzer where
  max_token_limit : ℕ
  chunk_size : ℕ
  error_patterns : Catalog
  solution_templates : List (String × List String)

/-- `LogAnalyzer.__init__`, parameterised by the two config values
(`config.max_token_limit`, default 100000, and
`config.log_search_chunk_size`, default 10000). -/
def mkLogAnalyzer (max_token_limit chunk_size : ℕ) : LogAnalyzer :=
  { max_token_limit := max_token_limit, chunk_size := chunk_size,
    error_patterns := error_patterns, solution_templates := solution_templates }

/-- `_determine_log_type`: case-insensitive substring tests on the file
name, first match wins. -/
def isSubstring : Str → Str → Bool
  | needle, [] => needle.isPrefixOf []
  | needle, hay@(_ :: t) => needle.isPrefixOf hay || isSubstring needle t

def determine_log_type (file_name : String) : String :=
  let f := file_name.data.map lowerChar
  if isSubstring "stderr".data f then "stderr"
  else if isSubstring "stdout".data f then "stdout"
  else if isSubstring "log4j".data f then "log4j"
  else if isSubstring "driver".data f then "driver"
  else if isSubstring "executor".data f then "executor"
  else "unknown"

/-- The `log_type_weights` dict of `_calculate_priority_score`. -/
def log_type_weights : List (String × Q) :=
  [("stderr", q 10 10), ("log4j", q 8 10), ("driver", q 9 10),
   ("executor", q 7 10), ("stdout", q 3 10), ("unknown", q 1 10)]

/-- `log_type_weights.get(log_type, 0.1)`. -/
def roleWeight (log_type : String) : Q :=
  (log_type_weights.lookup log_type).getD (q 1 10)

/-- `{'critical': 5.0, 'high': 3.0, 'medium': 2.0, 'low': 1.0}.get(severity, 0.5)`. -/
def severityWeight (severity : String) : Q :=
  (([("critical", q 50 10), ("high", q 30 10), ("medium", q 20 10),
     ("low", q 10 10)]).lookup severity).getD (q 5 10)

/-- The pattern-catalog part of `_calculate_priority_score`: for every
pattern of every active category, `matches = len(re.findall(...))`; if
positive, add `matches * severity_weight * (priority / 100.0)`. -/
def patCatalogScore (pats : Catalog) (content : Str) : Q :=
  pats.foldl (fun sc kv =>
    kv.2.patterns.foldl (fun sc2 p =>
      let m := countPat p content
      if 0 < m then
        sc2 + Q.ofNat m * severityWeight kv.2.severity * q kv.2.priority 100
      else sc2) sc) (q 0 1)

/-- The search-term part of `_calculate_priority_score`.  `if search_query:`
is false both for `None` and for the empty string. -/
def queryScore (sq : Option String) (content : Str) : Q :=
  match sq with
  | none => q 0 1
  | some t => if t = "" then q 0 1 else Q.ofNat (countQuery t content) * q 20 10

/-- The `error_keywords` list of `_calculate_priority_score`. -/
def error_keywords : List (String × Q) :=
  [("\\bfatal\\b", q 20 10), ("\\bcritical\\b", q 20 10), ("\\bsevere\\b", q 18 10),
   ("\\berror\\b", q 15 10), ("\\bexception\\b", q 15 10), ("\\bfailed\\b", q 12 10),
   ("\\bfailure\\b", q 12 10), ("\\bwarning\\b", q 8 10), ("\\bwarn\\b", q 8 10)]

/-- The generic-keyword part of `_calculate_priority_score`. -/
def keywordScore (content : Str) : Q :=
  error_keywords.foldl (fun sc kw => sc + Q.ofNat (countPat kw.1 content) * kw.2) (q 0 1)

/-- `_calculate_priority_score`: the four phases of the source in order
(role weight, catalog patterns, search term, generic keywords); rational
addition is exact, so regrouping the running float sum is harmless here. -/
def calculate_priority_score (pats : Catalog) (content : Str) (log_type : String)
    (sq : Option String) : Q :=
  roleWeight log_type + patCatalogScore pats content + queryScore sq content +
    keywordScore content

/-- `_find_error_indicators`: the names of the active categories in which
some pattern has a `re.search` hit (the source breaks at the first
matching pattern of a category). -/
def find_error_indicators (pats : Catalog) (content : Str) : List String :=
  pats.filterMap (fun kv =>
    if kv.2.patterns.any (fun p => testPat p content) then some kv.1 else none)

/-- `lines[i:i+step]` windows for `i in range(0, len(lines), step)`,
`step ≥ 1` (the `step = 0` case raises in Python and is handled by the
caller).  Structural recursion on a fuel that dominates the number of
windows (each window consumes at least one line, so `length + 1` always
suffices). -/
def windowListF : ℕ → ℕ → List Str → List Str
  | 0, _, _ => []
  | _ + 1, _, [] => []
  | _ + 1, 0, _ :: _ => []
  | fuel + 1, st + 1, l :: rest =>
    joinWith ['\n'] (l :: rest.take st) :: windowListF fuel (st + 1) (rest.drop st)

def windowList (step : ℕ) (lines : List Str) : List Str :=
  windowListF (lines.length + 1) step lines

/-- The per-window emission loop of `_chunk_and_prioritize_logs` for one
document: skip whitespace-only windows, otherwise score, collect
indicators and assign the next chunk id. -/
def emitWindows (pats : Catalog) (q : Option String) (fn log_type : String) :
    List Str → ℕ → List LogChunk × ℕ
  | [], cid => ([], cid)
  | w :: ws, cid =>
    if isBlank w then emitWindows pats q fn log_type ws cid
    else
      let c : LogChunk :=
        { content := w, chunk_id := cid, file_name := fn, log_type := log_type,
          priority_score := calculate_priority_score pats w log_type q,
          error_indicators := find_error_indicators pats w }
      let (rest, cid') := emitWindows pats q fn log_type ws (cid + 1)
      (c :: rest, cid')

/-- The per-document loop of `_chunk_and_prioritize_logs` (documents in
dict insertion order, chunk ids continuing across documents). -/
def emitDocs (pats : Catalog) (q : Option String) (step : ℕ) :
    List (String × String) → ℕ → List LogChunk
  | [], _ => []
  | (fn, content) :: rest, cid =>
    let log_type := determine_log_type fn
    let ws := windowList step (splitNl content.data)
    let (cs, cid') := emitWindows pats q fn log_type ws cid
    cs ++ emitDocs pats q step rest cid'

/-- `_chunk_and_prioritize_logs`.  `none` models the `ValueError` raised
by `range(0, len(lines), 0)` when `chunk_size // 100 == 0` and there is at
least one document. -/
def chunk_and_prioritize_logs (a : LogAnalyzer) (docs : List (String × String))
    (q : Option String) : Option (List LogChunk) :=
  let step := a.chunk_size / 100
  if docs.isEmpty then some []
  else if step = 0 then none
  else some (pySortedRev Q.blt (fun c => c.priority_score) (emitDocs a.error_patterns q step docs 0))

/-- One step of the `error_counts` / `error_examples` accumulation in
`_analyze_errors`: entries are `(error_type, count, examples)` with
examples capped at 3. -/
def bumpCount (file : String) (content : Str) (k : String) :
    List (String × ℕ × List (String × Str)) → List (String × ℕ × List (String × Str))
  | [] => []
  | (k', cnt, exs) :: rest =>
    if k' = k then
      (k', cnt + 1, if exs.length < 3 then exs ++ [(file, content.take 500)] else exs) :: rest
    else (k', cnt, exs) :: bumpCount file content k rest

def addIndicator (file : String) (content : Str)
    (acc : List (String × ℕ × List (String × Str))) (k : String) :
    List (String × ℕ × List (String × Str)) :=
  if acc.any (fun e => e.1 = k) then bumpCount file content k acc
  else acc ++ [(k, 1, [(file, content.take 500)])]

/-- The counting loop of `_analyze_errors` over all chunks and their
indicators, in order (dict keys appear in first-occurrence order). -/
def collectCounts (chunks : List LogChunk) : List (String × ℕ × List (String × Str)) :=
  chunks.foldl (fun acc ch =>
    ch.error_indicators.foldl (fun acc2 k => addIndicator ch.file_name ch.content acc2 k) acc) []

/-- The `severity_priority` dict of `_analyze_errors`. -/
def severity_priority : List (String × ℕ) :=
  [("critical", 4), ("high", 3), ("medium", 2), ("low", 1)]

/-- `_analyze_errors`: build one `ErrorSummary` per counted category that
exists in the active catalog, then sort by
`(severity_priority.get(severity, 0), frequency)` descending. -/
def analyze_errors (pats : Catalog) (sols : List (String × List String))
    (chunks : List LogChunk) : List ErrorSummary :=
  let summaries := (collectCounts chunks).filterMap (fun e =>
    match pats.lookup e.1 with
    | some cfg =>
      some { error_type := e.1,
             description := cfg.category ++ " related issues detected",
             frequency := e.2.1,
             severity := cfg.severity,
             suggested_solution := String.intercalate "; " ((sols.lookup cfg.category).getD []),
             relevant_logs := e.2.2.map (fun ex => ex.1) }
    | none => none)
  pySortedRev natPairLtB
    (fun e => ((severity_priority.lookup e.severity).getD 0, e.frequency)) summaries

/-- The deduplication key of `_deduplicate_errors`:
`key = (error.error_type, error.description)`. -/
def keyOf (e : ErrorSummary) : String × String := (e.error_type, e.description)

/-- The inner `for existing in unique_errors: ... break` of
`_deduplicate_errors`: add `f` to the frequency of the first entry whose
`(error_type, description)` equals `k`. -/
def bumpFirst (k : String × String) (f : ℕ) : List ErrorSummary → List ErrorSummary
  | [] => []
  | x :: xs =>
    if keyOf x = k then { x with frequency := x.frequency + f } :: xs
    else x :: bumpFirst k f xs

def dedupGo (seen : List (String × String)) (acc : List ErrorSummary) :
    List ErrorSummary → List ErrorSummary
  | [] => acc
  | e :: rest =>
    if keyOf e ∈ seen then dedupGo seen (bumpFirst (keyOf e) e.frequency acc) rest
    else dedupGo (keyOf e :: seen) (acc ++ [e]) rest

/-- `_deduplicate_errors`. -/
def deduplicate_errors (errors : List ErrorSummary) : List ErrorSummary :=
  dedupGo [] [] errors

/-- `_estimate_tokens`: `len(text.split()) * 1.3`. -/
def estimate_tokens (text : Str) : Q := Q.ofNat (pyWords text).length * q 13 10

/-- `_truncate_to_token_limit`.  `target_words` models
`int(max_token_limit / 1.3)`; `limit * 10 / 13` in ℕ agrees with the float
computation for every limit used below (for limits divisible by 13 the
float division can undershoot by one word, which only shortens the output
further and affects none of the statements proved here). -/
def truncate_to_token_limit (max_token_limit : ℕ) (text : Str) : Str :=
  let words := pyWords text
  let target_words := max_token_limit * 10 / 13
  if words.length ≤ target_words then text
  else
    joinWith [' '] (words.take target_words) ++
      ("\n\n... (Content truncated to stay within " ++ toString max_token_limit ++
        " token limit)").data

/-! ### Summary rendering and the two entry points -/

/-- `error_type.upper()`. -/
def pyUpper (s : String) : String := String.mk (s.data.map upperChar)

/-- Python's `repr` of a list of strings, as interpolated by
`f"... {chunk.error_indicators}"`. -/
def pyReprStrList (l : List String) : String :=
  "[" ++ String.intercalate ", " (l.map (fun s => "\x27" ++ s ++ "\x27")) ++ "]"

/-- `f"{score:.2f}"` for the non-negative rational scores (round half up;
the exact tie-breaking of float formatting never matters below — the
rendered summary is only ever fed to the word-count token estimator). -/
def qFmt2 (x : Q) : String :=
  let y := x * Q.ofNat 100 + q 1 2
  let n := y.num.toNat / y.den
  toString (n / 100) ++ "." ++ (if n % 100 < 10 then "0" else "") ++ toString (n % 100)

/-- Rendering of a float value interpolated with `f"{x}"` (used for the
token-usage line of the iterative summary; again only word counts of the
result ever matter). -/
def qRepr (x : Q) : String :=
  if x.den = 1 then toString x.num ++ ".0" else toString x.num ++ "/" ++ toString x.den

/-- `_create_optimized_summary`: the `summary_parts` list joined by
newlines, then the token-budget truncation pass. -/
def create_optimized_summary (a : LogAnalyzer) (chunks : List LogChunk)
    (error_summary : List ErrorSummary) : String :=
  let header : List String := ["=== LOG ANALYSIS SUMMARY ===\n"]
  let errorParts : List String :=
    if error_summary.isEmpty then []
    else
      "IDENTIFIED ERRORS:" ::
        (error_summary.take 5).flatMap (fun e =>
          ["• " ++ pyUpper e.error_type ++ " (" ++ e.severity ++ "): Found " ++
            toString e.frequency ++ " occurrences",
           "  Solution: " ++ String.mk (e.suggested_solution.data.take 200) ++ "...",
           ""])
  let chunkParts : List String :=
    "MOST RELEVANT LOG EXCERPTS:" ::
      ((chunks.take 5).enum).flatMap (fun ic =>
        ["\n--- Excerpt " ++ toString (ic.1 + 1) ++ " from " ++ ic.2.file_name ++ " ---",
         "Priority: " ++ qFmt2 ic.2.priority_score ++ " | Errors: " ++
           pyReprStrList ic.2.error_indicators,
         String.mk (ic.2.content.take 1000)] ++
          (if 1000 < ic.2.content.length then ["... (truncated)"] else []))
  let full_summary := String.intercalate "\n" (header ++ errorParts ++ chunkParts)
  if Q.blt (Q.ofNat a.max_token_limit) (estimate_tokens full_summary.data) then
    String.mk (truncate_to_token_limit a.max_token_limit full_summary.data)
  else full_summary

/-- The per-round record appended to `iteration_results`. -/
structure IterationRecord where
  iteration : ℕ
  patterns_searched : List String
  errors_found : ℕ
  chunks_analyzed : ℕ
  token_usage : Q
deriving DecidableEq, Repr

/-- `_create_iterative_summary` (joined `summary_parts`, then the
token-budget truncation pass). -/
def create_iterative_summary (a : LogAnalyzer) (chunks : List LogChunk)
    (errors : List ErrorSummary) (iteration_results : List IterationRecord) : String :=
  let header : List String :=
    ["=== ITERATIVE LOG ANALYSIS SUMMARY ===",
     "Analysis completed in " ++ toString iteration_results.length ++ " iterations\n",
     "ITERATION BREAKDOWN:"] ++
      iteration_results.map (fun r =>
        "Iteration " ++ toString r.iteration ++ ": " ++ toString r.errors_found ++
          " errors found, " ++ toString r.chunks_analyzed ++ " chunks analyzed, " ++
          qRepr r.token_usage ++ " tokens used") ++
      [""]
  let critical_errors := errors.filter (fun e => e.severity = "critical")
  let criticalParts : List String :=
    if critical_errors.isEmpty then []
    else
      "🚨 CRITICAL ERRORS DETECTED:" ::
        critical_errors.flatMap (fun e =>
          ["• " ++ pyUpper e.error_type ++ ": " ++ toString e.frequency ++ " occurrences",
           "  Solution: " ++ String.mk (e.suggested_solution.data.take 150) ++ "..."]) ++
        [""]
  let high_errors := (errors.filter (fun e => e.severity = "high")).take 3
  let highParts : List String :=
    if high_errors.isEmpty then []
    else
      "⚠️  HIGH PRIORITY ERRORS:" ::
        high_errors.flatMap (fun e =>
          ["• " ++ pyUpper e.error_type ++ ": " ++ toString e.frequency ++ " occurrences",
           "  Solution: " ++ String.mk (e.suggested_solution.data.take 150) ++ "..."]) ++
        [""]
  let top_chunks := (pySortedRev Q.blt (fun c => c.priority_score) chunks).take 3
  let chunkParts : List String :=
    "📋 MOST RELEVANT LOG EXCERPTS:" ::
      (top_chunks.enum).flatMap (fun ic =>
        ["\n--- Excerpt " ++ toString (ic.1 + 1) ++ " from " ++ ic.2.file_name ++ " ---",
         "Priority: " ++ qFmt2 ic.2.priority_score ++ " | Errors: " ++
           pyReprStrList ic.2.error_indicators,
         String.mk (ic.2.content.take 800)] ++
          (if 800 < ic.2.content.length then ["... (truncated)"] else []))
  let full_summary :=
    String.intercalate "\n" (header ++ criticalParts ++ highParts ++ chunkParts)
  if Q.blt (Q.ofNat a.max_token_limit) (estimate_tokens full_summary.data) then
    String.mk (truncate_to_token_limit a.max_token_limit full_summary.data)
  else full_summary

/-- The result dict of `analyze_logs`. -/
structure AnalysisOutput where
  error_summary : List ErrorSummary
  prioritized_chunks : List LogChunk
  optimized_content : String
  token_estimate : Q

/-- `analyze_logs` (`none` models the un-caught `ValueError` from the
chunker, see `chunk_and_prioritize_logs`). -/
def analyze_logs (a : LogAnalyzer) (log_content : List (String × String))
    (search_query : Option String) : Option AnalysisOutput :=
  (chunk_and_prioritize_logs a log_content search_query).map (fun chunked_logs =>
    let error_summary := analyze_errors a.error_patterns a.solution_templates chunked_logs
    let optimized_content := create_optimized_summary a chunked_logs error_summary
    { error_summary := error_summary,
      prioritized_chunks := chunked_logs.take 10,
      optimized_content := optimized_content,
      token_estimate := estimate_tokens optimized_content.data })

/-- The dict returned by `_analyze_iteration`. -/
structure IterResult where
  errors : List ErrorSummary
  chunks : List LogChunk
  token_usage : Q

/-- `_analyze_iteration` with the analyzer state threaded explicitly: the
body runs with `error_patterns` replaced by `target_patterns`, and the
`finally:` block restores the original catalog whether the body returns
normally (`some`) or raises (`none`). -/
def analyze_iteration_st (a : LogAnalyzer) (log_content : List (String × String))
    (search_query : Option String) (target_patterns : Catalog) (chunk_limit : ℕ)
    (token_budget : Q) : Option IterResult × LogAnalyzer :=
  let a' := { a with error_patterns := target_patterns }
  let body : Option IterResult :=
    match chunk_and_prioritize_logs a' log_content search_query with
    | none => none
    | some chunked_logs =>
      let limited_chunks := chunked_logs.take chunk_limit
      let error_summary := analyze_errors a'.error_patterns a'.solution_templates limited_chunks
      let content_sample :=
        joinWith ['\n'] ((limited_chunks.take 5).map (fun ch => ch.content.take 500))
      let token_usage := estimate_tokens content_sample
      some { errors := error_summary, chunks := limited_chunks,
             token_usage := Q.qmin token_usage token_budget }
  (body, { a' with error_patterns := a.error_patterns })

def analyze_iteration (a : LogAnalyzer) (log_content : List (String × String))
    (search_query : Option String) (target_patterns : Catalog) (chunk_limit : ℕ)
    (token_budget : Q) : Option IterResult :=
  (analyze_iteration_st a log_content search_query target_patterns chunk_limit token_budget).1

/-- The accumulator of the iteration loop of `analyze_logs_iteratively`
(`all_errors`, `analyzed_chunks`, `iteration_results`, `token_budget`). -/
structure IterState where
  all_errors : List ErrorSummary
  analyzed_chunks : List LogChunk
  iteration_results : List IterationRecord
  token_budget : Q

/-- The pattern subset and chunk cap for round `iteration`. -/
def iterTargets (sorted_patterns : Catalog) (iteration : ℕ) : Catalog × ℕ :=
  if iteration = 0 then (sorted_patterns.take 3, 5)
  else if iteration = 1 then (sorted_patterns.take 6, 10)
  else (sorted_patterns, 20)

/-- The `for iteration in range(max_iterations)` loop of
`analyze_logs_iteratively`, with its two `break`s (critical errors in
round 1; token budget below 1000). -/
def iterLoop (a : LogAnalyzer) (log_content : List (String × String))
    (search_query : Option String) (sorted_patterns : Catalog) :
    ℕ → ℕ → IterState → Option IterState
  | _, 0, st => some st
  | iteration, rem + 1, st =>
    let tc := iterTargets sorted_patterns iteration
    match analyze_iteration a log_content search_query tc.1 tc.2 st.token_budget with
    | none => none
    | some ir =>
      let st' : IterState :=
        { all_errors := st.all_errors ++ ir.errors,
          analyzed_chunks := st.analyzed_chunks ++ ir.chunks,
          iteration_results := st.iteration_results ++
            [{ iteration := iteration + 1, patterns_searched := tc.1.map (fun kv => kv.1),
               errors_found := ir.errors.length, chunks_analyzed := ir.chunks.length,
               token_usage := ir.token_usage }],
          token_budget := st.token_budget - ir.token_usage }
      if (ir.errors.filter (fun e => e.severity = "critical")) ≠ [] ∧ iteration = 0 then some st'
      else if Q.blt st'.token_budget (Q.ofNat 1000) then some st'
      else iterLoop a log_content search_query sorted_patterns (iteration + 1) rem st'

/-- The loop of `analyze_logs_iteratively` from its initial state:
patterns sorted by priority descending, full token budget. -/
def iterCore (a : LogAnalyzer) (log_content : List (String × String))
    (search_query : Option String) (max_iterations : ℕ) : Option IterState :=
  let sorted_patterns := pySortedRev natLtB (fun kv => kv.2.priority) a.error_patterns
  iterLoop a log_content search_query sorted_patterns 0 max_iterations
    { all_errors := [], analyzed_chunks := [], iteration_results := [],
      token_budget := Q.ofNat a.max_token_limit }

/-- The result dict of `analyze_logs_iteratively`. -/
structure IterOutput where
  error_summary : List ErrorSummary
  prioritized_chunks : List LogChunk
  optimized_content : String
  token_estimate : Q
  iteration_breakdown : List IterationRecord
  total_iterations : ℕ

/-- `analyze_logs_iteratively`: run the loop, deduplicate the accumulated
errors, sort them by the tuple `(severity, frequency)` descending — note
the source compares the severity *string* here — render the final summary
and assemble the result dict. -/
def analyze_logs_iteratively (a : LogAnalyzer) (log_content : List (String × String))
    (search_query : Option String) (max_iterations : ℕ) : Option IterOutput :=
  (iterCore a log_content search_query max_iterations).map (fun st =>
    let unique_errors := deduplicate_errors st.all_errors
    let sorted_errors :=
      pySortedRev strNatLtB (fun e => (e.severity, e.frequency)) unique_errors
    let final_summary :=
      create_iterative_summary a st.analyzed_chunks sorted_errors st.iteration_results
    { error_summary := sorted_errors,
      prioritized_chunks := st.analyzed_chunks.take 15,
      optimized_content := final_summary,
      token_estimate := estimate_tokens final_summary.data,
      iteration_breakdown := st.iteration_results,
      total_iterations := st.iteration_results.length })

/-! ### Auxiliary definitions used by the claim statements -/

/-- Everything of an `ErrorSummary` except its `frequency`. -/
def shapeOf (e : ErrorSummary) : String × String × String × String × List String :=
  (e.error_type, e.description, e.severity, e.suggested_solution, e.relevant_logs)

/-- Total frequency carried by entries with key `k`. -/
def getFreq (l : List ErrorSummary) (k : String × String) : ℕ :=
  ((l.filter (fun e => keyOf e = k)).map (fun e => e.frequency)).sum

/-- Spec-side reference for deduplication: keep the first occurrence of
every key (in first-seen order), skipping keys already in `seen`. -/
def firstOccurrences (seen : List (String × String)) : List ErrorSummary → List ErrorSummary
  | [] => []
  | e :: rest =>
    if keyOf e ∈ seen then firstOccurrences seen rest
    else e :: firstOccurrences (keyOf e :: seen) rest

/-- Spec-side reference for the Chunker contract: the non-overlapping
`lines_per_chunk`-line windows of a line list, the tail window possibly
shorter (fuel-structured like `windowListF`). -/
def groupLinesF : ℕ → ℕ → List Str → List (List Str)
  | 0, _, _ => []
  | _ + 1, _, [] => []
  | _ + 1, 0, _ :: _ => []
  | fuel + 1, n + 1, l :: rest => (l :: rest.take n) :: groupLinesF fuel (n + 1) (rest.drop n)

def groupLines (n : ℕ) (lines : List Str) : List (List Str) :=
  groupLinesF (lines.length + 1) n lines

/-- Spec-side reference for the chunk boundaries: for each document in
order, its line windows joined back to text, whitespace-only windows
dropped, tagged with the file name — a pure function of the document text
and the lines-per-chunk value only. -/
def chunkBoundaries (docs : List (String × String)) (lines_per_chunk : ℕ) :
    List (String × Str) :=
  docs.flatMap (fun d =>
    (((groupLines lines_per_chunk (splitNl d.2.data)).map (joinWith ['\n'])).filter
      (fun w => !isBlank w)).map (fun w => (d.1, w)))

/-- All line windows of all documents (before the whitespace-only filter);
every emitted chunk's content is one of these. -/
def allWindows (docs : List (String × String)) (step : ℕ) : List Str :=
  docs.flatMap (fun d => windowList step (splitNl d.2.data))

/-- The regex strings of the catalog's `memory_errors` entry (the only
critical-severity category). -/
def catalogMemoryPatterns : List String :=
  ((error_patterns.lookup "memory_errors").map (fun cfg => cfg.patterns)).getD []

/-- The analyzer under the default configuration
(`MAX_TOKEN_LIMIT=100000`, `LOG_SEARCH_CHUNK_SIZE=10000`). -/
def defaultAnalyzer : LogAnalyzer := mkLogAnalyzer 100000 10000

/-- A 200-word text, large enough to trigger the truncation pass at a
token limit of 100. -/
def c1_text : Str := joinWith [' '] (List.replicate 200 ['w'])

/-- A document whose only chunk matches both the critical `memory_errors`
and the high `spark_sql_errors` category. -/
def c2_docs : List (String × String) := [("stderr", "OutOfMemoryError AnalysisException")]

/-- A document containing a `FATAL ERROR` line (the early-exit scenario of
the spec). -/
def c3_docs : List (String × String) :=
  [("stderr", "FATAL ERROR: System crashed unexpectedly")]

/-- Ten one-line chunks (chunk size 100 → one line per chunk); only the
last matches any catalog category (`database_errors`, searched only in
round 3). -/
def c5_docs : List (String × String) :=
  [("stderr",
    "alpha\nbravo\ncharlie\ndelta\necho\nfoxtrot\ngolf\nhotel\nindia\ndeadlock detected")]

/-- The analyzer with chunk size 100 (one line per chunk). -/
def chunk100Analyzer : LogAnalyzer := mkLogAnalyzer 100000 100

/-- The pattern subset used by round 1 of the iterative controller: the
top 3 catalog entries by priority. -/
def round0Catalog : Catalog :=
  (pySortedRev natLtB (fun kv => kv.2.priority) error_patterns).take 3

/-- Two single-entry summary lists over the same key (as produced by two
rounds of the Categorizer), used to witness the deduplication claim. -/
def c7_entry1 : ErrorSummary :=
  { error_type := "memory_errors", description := "Memory Management related issues detected",
    frequency := 2, severity := "critical", suggested_solution := "s", relevant_logs := ["stderr"] }

def c7_entry2 : ErrorSummary :=
  { error_type := "memory_errors", description := "Memory Management related issues detected",
    frequency := 3, severity := "critical", suggested_solution := "t", relevant_logs := ["driver"] }

def c7_key : String × String := ("memory_errors", "Memory Management related issues detected")

/-! ## Lemmas

### Generic list and sorting lemmas -/

theorem mem_insertByB {lt : α → α → Bool} {x y : α} {l : List α} :
    y ∈ insertByB lt x l ↔ y = x ∨ y ∈ l := by
  induction l with
  | nil => simp [insertByB]
  | cons a tl ih =>
    simp only [insertByB]
    split
    · simp
    · simp only [List.mem_cons, ih]
      tauto

theorem mem_sortByB {lt : α → α → Bool} {y : α} {l : List α} :
    y ∈ sortByB lt l ↔ y ∈ l := by
  induction l with
  | nil => simp [sortByB]
  | cons a tl ih => simp [sortByB, mem_insertByB, ih]

theorem mem_pySortedRev {kLt : κ → κ → Bool} {key : α → κ} {y : α} {l : List α}
    (h : y ∈ pySortedRev kLt key l) : y ∈ l := by
  unfold pySortedRev at h
  obtain ⟨p, hp, hpy⟩ := List.mem_map.mp h
  have hpl : p ∈ l.enum := mem_sortByB.mp hp
  have : p.2 ∈ (l.enum).map Prod.snd := List.mem_map_of_mem Prod.snd hpl
  rw [List.enum_map_snd] at this
  exact hpy ▸ this

theorem lookup_mem [BEq α] [LawfulBEq α] {l : List (α × β)} {k : α} {v : β}
    (h : l.lookup k = some v) : (k, v) ∈ l := by
  induction l with
  | nil => simp [List.lookup] at h
  | cons a tl ih =>
    rw [List.lookup] at h
    by_cases hk : k == a.1
    · rw [hk] at h
      simp only [Option.some.injEq] at h
      have hka : k = a.1 := eq_of_beq hk
      rw [hka, ← h, Prod.mk.eta]
      exact List.mem_cons_self a tl
    · rw [Bool.not_eq_true] at hk
      rw [hk] at h
      exact List.mem_cons_of_mem _ (ih h)

/-! ### Deduplication: `_deduplicate_errors` merges by key, keeping the
first occurrence's fields and order -/

theorem bumpFirst_map_shape (k : String × String) (f : ℕ) (acc : List ErrorSummary) :
    (bumpFirst k f acc).map shapeOf = acc.map shapeOf := by
  induction acc with
  | nil => rfl
  | cons x xs ih =>
    simp only [bumpFirst]
    split
    · simp [shapeOf]
    · simp [ih]

theorem bumpFirst_map_key (k : String × String) (f : ℕ) (acc : List ErrorSummary) :
    (bumpFirst k f acc).map keyOf = acc.map keyOf := by
  induction acc with
  | nil => rfl
  | cons x xs ih =>
    simp only [bumpFirst]
    split
    · simp [keyOf]
    · simp [ih]

theorem getFreq_cons (e : ErrorSummary) (l : List ErrorSummary) (k : String × String) :
    getFreq (e :: l) k = (if keyOf e = k then e.frequency else 0) + getFreq l k := by
  by_cases h : keyOf e = k
  · simp [getFreq, List.filter_cons, h]
  · simp [getFreq, List.filter_cons, h]

theorem getFreq_append (l1 l2 : List ErrorSummary) (k : String × String) :
    getFreq (l1 ++ l2) k = getFreq l1 k + getFreq l2 k := by
  simp [getFreq, List.filter_append]

theorem getFreq_bumpFirst_self (acc : List ErrorSummary) (k : String × String) (f : ℕ)
    (h : k ∈ acc.map keyOf) : getFreq (bumpFirst k f acc) k = getFreq acc k + f := by
  induction acc with
  | nil => simp at h
  | cons x xs ih =>
    simp only [bumpFirst]
    split
    · next hx =>
      have hx2 : keyOf ({ x with frequency := x.frequency + f } : ErrorSummary) = k := hx
      rw [getFreq_cons, getFreq_cons, if_pos hx2, if_pos hx]
      have hfr : ({ x with frequency := x.frequency + f } : ErrorSummary).frequency =
          x.frequency + f := rfl
      rw [hfr]
      omega
    · next hx =>
      rw [getFreq_cons, getFreq_cons]
      simp only [List.map_cons, List.mem_cons] at h
      rcases h with h | h
      · exact absurd h.symm hx
      · rw [ih h]; omega

theorem getFreq_bumpFirst_ne (acc : List ErrorSummary) (k k' : String × String) (f : ℕ)
    (h : k' ≠ k) : getFreq (bumpFirst k f acc) k' = getFreq acc k' := by
  induction acc with
  | nil => rfl
  | cons x xs ih =>
    simp only [bumpFirst]
    split
    · next hx =>
      have hne : ¬(keyOf x = k') := fun hc => h (hc ▸ hx)
      have hne2 : ¬(keyOf ({ x with frequency := x.frequency + f } : ErrorSummary) = k') := hne
      rw [getFreq_cons, getFreq_cons, if_neg hne2, if_neg hne]
    · next hx =>
      rw [getFreq_cons, getFreq_cons, ih]

theorem dedupGo_getFreq (errors : List ErrorSummary) :
    ∀ (seen : List (String × String)) (acc : List ErrorSummary) (k : String × String),
      (∀ x ∈ seen, x ∈ acc.map keyOf) →
      getFreq (dedupGo seen acc errors) k = getFreq acc k + getFreq errors k := by
  induction errors with
  | nil => intro seen acc k _; simp [dedupGo, getFreq]
  | cons e rest ih =>
    intro seen acc k hinv
    rw [dedupGo]
    split
    · next hseen =>
      have hacc : keyOf e ∈ acc.map keyOf := hinv _ hseen
      have hinv' : ∀ x ∈ seen, x ∈ (bumpFirst (keyOf e) e.frequency acc).map keyOf := by
        intro x hx; rw [bumpFirst_map_key]; exact hinv x hx
      rw [ih seen _ k hinv', getFreq_cons]
      by_cases hk : keyOf e = k
      · rw [hk] at hacc ⊢
        rw [getFreq_bumpFirst_self acc k e.frequency hacc, if_pos rfl]
        omega
      · rw [getFreq_bumpFirst_ne acc _ k e.frequency (fun hc => hk hc.symm), if_neg hk]
        omega
    · next hseen =>
      have hinv' : ∀ x ∈ keyOf e :: seen, x ∈ (acc ++ [e]).map keyOf := by
        intro x hx
        rcases List.mem_cons.mp hx with h | h
        · simp [h]
        · simp only [List.map_append, List.mem_append]
          exact Or.inl (hinv x h)
      rw [ih _ _ k hinv', getFreq_append, getFreq_cons e [] k, getFreq_cons e rest k]
      have h0 : getFreq ([] : List ErrorSummary) k = 0 := rfl
      rw [h0]
      omega

theorem dedupGo_shapes (errors : List ErrorSummary) :
    ∀ (seen : List (String × String)) (acc : List ErrorSummary),
      (dedupGo seen acc errors).map shapeOf =
        acc.map shapeOf ++ (firstOccurrences seen errors).map shapeOf := by
  induction errors with
  | nil => intro seen acc; simp [dedupGo, firstOccurrences]
  | cons e rest ih =>
    intro seen acc
    rw [dedupGo, firstOccurrences]
    split
    · rw [ih, bumpFirst_map_shape]
    · rw [ih]
      simp

/-- Key-counting over the deduplicated output, via the shape lemma. -/
theorem dedupGo_countKey (errors : List ErrorSummary)
    (seen : List (String × String)) (acc : List ErrorSummary) (k : String × String) :
    (dedupGo seen acc errors).countP (fun e => decide (keyOf e = k)) =
      acc.countP (fun e => decide (keyOf e = k)) +
        (firstOccurrences seen errors).countP (fun e => decide (keyOf e = k)) := by
  have hmap : ∀ l : List ErrorSummary,
      l.countP (fun e => decide (keyOf e = k)) =
        (l.map shapeOf).countP (fun s => decide ((s.1, s.2.1) = k)) := by
    intro l
    rw [List.countP_map]
    rfl
  rw [hmap, hmap, hmap, dedupGo_shapes, List.countP_append]

theorem countKey_firstOccurrences (errors : List ErrorSummary) :
    ∀ (seen : List (String × String)) (k : String × String),
      (firstOccurrences seen errors).countP (fun e => decide (keyOf e = k)) =
        if k ∈ seen then 0 else if errors.any (fun e => decide (keyOf e = k)) then 1 else 0 := by
  induction errors with
  | nil => intro seen k; simp [firstOccurrences]
  | cons e rest ih =>
    intro seen k
    rw [firstOccurrences]
    split
    · next hseen =>
      rw [ih]
      by_cases hk : k ∈ seen
      · simp [hk]
      · have hne : ¬(keyOf e = k) := fun hc => hk (hc ▸ hseen)
        simp only [List.any_cons]
        rw [if_neg hk, if_neg hk]
        simp [hne]
    · next hseen =>
      rw [List.countP_cons, ih]
      by_cases hk : keyOf e = k
      · have hkseen : ¬(k ∈ seen) := fun hc => hseen (hk ▸ hc)
        have : k ∈ keyOf e :: seen := by simp [hk]
        simp [this, hk, hkseen]
      · have hiff : (k ∈ keyOf e :: seen) ↔ k ∈ seen := by
          simp only [List.mem_cons]
          constructor
          · rintro (h | h)
            · exact absurd h.symm hk
            · exact h
          · exact Or.inr
        simp only [hiff, List.any_cons]
        by_cases hs : k ∈ seen <;> simp [hs, hk]

/-! ### Scorer lemmas (claim C6) -/

theorem Q.add_zero_lit (x : Q) : x + q 0 1 = x := by
  obtain ⟨n, d⟩ := x
  show Q.add ⟨n, d⟩ ⟨0, 1⟩ = ⟨n, d⟩
  simp [Q.add]

theorem patFold_inner_const (ps : List String) (content : Str) (sev : String) (pr : ℕ)
    (h : ∀ p ∈ ps, countPat p content = 0) :
    ∀ sc : Q,
      ps.foldl (fun sc2 p =>
        let m := countPat p content
        if 0 < m then sc2 + Q.ofNat m * severityWeight sev * q pr 100 else sc2) sc = sc := by
  induction ps with
  | nil => intro sc; rfl
  | cons p rest ih =>
    intro sc
    have hp : countPat p content = 0 := h p (List.mem_cons_self p rest)
    rw [List.foldl_cons]
    simp only [hp, Nat.lt_irrefl, if_false]
    exact ih (fun p' hp' => h p' (List.mem_cons_of_mem _ hp')) sc

theorem patCatalogScore_zero (pats : Catalog) (content : Str)
    (h : ∀ kv ∈ pats, ∀ p ∈ kv.2.patterns, countPat p content = 0) :
    patCatalogScore pats content = q 0 1 := by
  unfold patCatalogScore
  suffices hgen : ∀ sc : Q,
      pats.foldl (fun sc kv =>
        kv.2.patterns.foldl (fun sc2 p =>
          let m := countPat p content
          if 0 < m then sc2 + Q.ofNat m * severityWeight kv.2.severity * q kv.2.priority 100
          else sc2) sc) sc = sc from hgen (q 0 1)
  induction pats with
  | nil => intro sc; rfl
  | cons kv rest ih =>
    intro sc
    rw [List.foldl_cons,
      patFold_inner_const kv.2.patterns content kv.2.severity kv.2.priority
        (h kv (List.mem_cons_self kv rest)) sc]
    exact ih (fun kv' hkv' => h kv' (List.mem_cons_of_mem _ hkv')) sc

theorem find_error_indicators_nil (pats : Catalog) (content : Str)
    (h : ∀ kv ∈ pats, ∀ p ∈ kv.2.patterns, countPat p content = 0) :
    find_error_indicators pats content = [] := by
  unfold find_error_indicators
  induction pats with
  | nil => rfl
  | cons kv rest ih =>
    rw [List.filterMap_cons]
    have hany : kv.2.patterns.any (fun p => testPat p content) = false := by
      rw [List.any_eq_false]
      intro p hp
      have := h kv (List.mem_cons_self kv rest) p hp
      simp [testPat, this]
    simp only [hany, Bool.false_eq_true, if_false]
    exact ih (fun kv' hkv' => h kv' (List.mem_cons_of_mem _ hkv'))

/-! ### Indicator and error-summary origin lemmas (claim C3) -/

theorem find_error_indicators_origin {pats : Catalog} {content : Str} {k : String}
    (h : k ∈ find_error_indicators pats content) :
    ∃ cfg, (k, cfg) ∈ pats ∧ cfg.patterns.any (fun p => testPat p content) = true := by
  unfold find_error_indicators at h
  obtain ⟨kv, hkv, hsome⟩ := List.mem_filterMap.mp h
  by_cases hc : kv.2.patterns.any (fun p => testPat p content) = true
  · refine ⟨kv.2, ?_, hc⟩
    have : kv.1 = k := by
      rw [if_pos hc] at hsome
      exact Option.some.inj hsome
    rw [← this, Prod.mk.eta]
    exact hkv
  · rw [if_neg hc] at hsome
    exact absurd hsome (by simp)

/-! ### Chunker lemmas: every emitted chunk's content is one of the line
windows, and its indicators are computed from the active catalog -/

theorem emitWindows_mem {pats : Catalog} {sq : Option String} {fn lt : String} :
    ∀ (ws : List Str) (cid : ℕ) (c : LogChunk),
      c ∈ (emitWindows pats sq fn lt ws cid).1 →
      c.content ∈ ws ∧ c.error_indicators = find_error_indicators pats c.content := by
  intro ws
  induction ws with
  | nil => intro cid c hc; simp [emitWindows] at hc
  | cons w rest ih =>
    intro cid c hc
    rw [emitWindows] at hc
    by_cases hb : isBlank w
    · rw [if_pos hb] at hc
      obtain ⟨h1, h2⟩ := ih cid c hc
      exact ⟨List.mem_cons_of_mem _ h1, h2⟩
    · rw [if_neg hb] at hc
      simp only [List.mem_cons] at hc
      rcases hc with hc | hc
      · subst hc
        exact ⟨List.mem_cons_self _ _, rfl⟩
      · obtain ⟨h1, h2⟩ := ih (cid + 1) c hc
        exact ⟨List.mem_cons_of_mem _ h1, h2⟩

theorem emitDocs_mem {pats : Catalog} {sq : Option String} {step : ℕ} :
    ∀ (docs : List (String × String)) (cid : ℕ) (c : LogChunk),
      c ∈ emitDocs pats sq step docs cid →
      c.content ∈ allWindows docs step ∧
        c.error_indicators = find_error_indicators pats c.content := by
  intro docs
  induction docs with
  | nil => intro cid c hc; simp [emitDocs] at hc
  | cons d rest ih =>
    intro cid c hc
    rw [emitDocs] at hc
    rw [List.mem_append] at hc
    rcases hc with hc | hc
    · obtain ⟨h1, h2⟩ := emitWindows_mem _ _ _ hc
      refine ⟨?_, h2⟩
      unfold allWindows
      rw [List.flatMap_cons, List.mem_append]
      exact Or.inl h1
    · obtain ⟨h1, h2⟩ := ih _ c hc
      refine ⟨?_, h2⟩
      unfold allWindows at h1 ⊢
      rw [List.flatMap_cons, List.mem_append]
      exact Or.inr h1

/-- When `chunk_size // 100` is non-zero the chunker returns normally, and
every chunk it returns comes from a line window of the input. -/
theorem chunk_and_prioritize_logs_some (a : LogAnalyzer) (docs : List (String × String))
    (sq : Option String) (h : a.chunk_size / 100 ≠ 0) :
    ∃ l, chunk_and_prioritize_logs a docs sq = some l ∧
      ∀ c ∈ l, c.content ∈ allWindows docs (a.chunk_size / 100) ∧
        c.error_indicators = find_error_indicators a.error_patterns c.content := by
  unfold chunk_and_prioritize_logs
  by_cases hd : docs.isEmpty
  · refine ⟨[], by rw [if_pos hd], by simp⟩
  · rw [if_neg hd, if_neg h]
    refine ⟨_, rfl, ?_⟩
    intro c hc
    exact emitDocs_mem docs 0 c (mem_pySortedRev hc)

/-! ### `_analyze_errors` lemmas: where each summary's severity comes from -/

theorem bumpCount_keys (file : String) (content : Str) (k : String)
    (acc : List (String × ℕ × List (String × Str))) :
    (bumpCount file content k acc).map (fun e => e.1) = acc.map (fun e => e.1) := by
  induction acc with
  | nil => rfl
  | cons x xs ih =>
    rw [bumpCount]
    split
    · simp
    · simp [ih]

theorem addIndicator_keys (file : String) (content : Str) (k : String)
    (acc : List (String × ℕ × List (String × Str))) (x : String)
    (hx : x ∈ (addIndicator file content acc k).map (fun e => e.1)) :
    x ∈ acc.map (fun e => e.1) ∨ x = k := by
  unfold addIndicator at hx
  split at hx
  · rw [bumpCount_keys] at hx
    exact Or.inl hx
  · rw [List.map_append] at hx
    rcases List.mem_append.mp hx with h | h
    · exact Or.inl h
    · simp at h
      exact Or.inr h

theorem innerFold_keys (file : String) (content : Str) :
    ∀ (ks : List String) (acc : List (String × ℕ × List (String × Str))) (x : String),
      x ∈ (ks.foldl (fun acc2 k => addIndicator file content acc2 k) acc).map (fun e => e.1) →
      x ∈ acc.map (fun e => e.1) ∨ x ∈ ks := by
  intro ks
  induction ks with
  | nil => intro acc x hx; exact Or.inl hx
  | cons k rest ih =>
    intro acc x hx
    rw [List.foldl_cons] at hx
    rcases ih _ x hx with h | h
    · rcases addIndicator_keys file content k acc x h with h2 | h2
      · exact Or.inl h2
      · exact Or.inr (by simp [h2])
    · exact Or.inr (List.mem_cons_of_mem _ h)

theorem collectCounts_keys :
    ∀ (chunks : List LogChunk) (acc : List (String × ℕ × List (String × Str))) (x : String),
      x ∈ (chunks.foldl (fun acc ch =>
        ch.error_indicators.foldl (fun acc2 k => addIndicator ch.file_name ch.content acc2 k) acc)
          acc).map (fun e => e.1) →
      x ∈ acc.map (fun e => e.1) ∨ ∃ ch ∈ chunks, x ∈ ch.error_indicators := by
  intro chunks
  induction chunks with
  | nil => intro acc x hx; exact Or.inl hx
  | cons ch rest ih =>
    intro acc x hx
    rw [List.foldl_cons] at hx
    rcases ih _ x hx with h | h
    · rcases innerFold_keys ch.file_name ch.content _ acc x h with h2 | h2
      · exact Or.inl h2
      · exact Or.inr ⟨ch, List.mem_cons_self _ _, h2⟩
    · obtain ⟨ch', hch', hx'⟩ := h
      exact Or.inr ⟨ch', List.mem_cons_of_mem _ hch', hx'⟩

/-- Every summary produced by `_analyze_errors` draws its severity from
the catalog entry of an indicator found on one of the chunks. -/
theorem analyze_errors_origin {pats : Catalog} {sols : List (String × List String)}
    {chunks : List LogChunk} {s : ErrorSummary}
    (h : s ∈ analyze_errors pats sols chunks) :
    ∃ cfg, pats.lookup s.error_type = some cfg ∧ s.severity = cfg.severity ∧
      ∃ ch ∈ chunks, s.error_type ∈ ch.error_indicators := by
  unfold analyze_errors at h
  have h2 := mem_pySortedRev h
  obtain ⟨e, he, hsome⟩ := List.mem_filterMap.mp h2
  rcases hlk : pats.lookup e.1 with _ | cfg
  · rw [hlk] at hsome
    exact absurd hsome (by simp)
  · rw [hlk] at hsome
    simp only [Option.some.injEq] at hsome
    have het : s.error_type = e.1 := by rw [← hsome]
    have hsev : s.severity = cfg.severity := by rw [← hsome]
    refine ⟨cfg, het ▸ hlk, hsev, ?_⟩
    have hkey : e.1 ∈ (collectCounts chunks).map (fun x => x.1) :=
      List.mem_map_of_mem _ he
    rcases collectCounts_keys chunks [] e.1 hkey with hk | hk
    · simp at hk
    · rw [het]
      exact hk

/-! ### Order lemmas for `Q` via its rational value (claim C3's budget
arithmetic) -/

theorem Q.blt_iff {a b : Q} (ha : 0 < a.den) (hb : 0 < b.den) :
    Q.blt a b = true ↔ a.toRat < b.toRat := by
  unfold Q.blt Q.toRat
  rw [decide_eq_true_iff]
  rw [div_lt_div_iff₀ (by exact_mod_cast ha) (by exact_mod_cast hb)]
  constructor
  · intro h
    exact_mod_cast h
  · intro h
    exact_mod_cast h

theorem Q.qmin_den {a b : Q} (ha : 0 < a.den) (hb : 0 < b.den) :
    0 < (Q.qmin a b).den := by
  unfold Q.qmin
  split
  · exact hb
  · exact ha

theorem Q.qmin_le_left {a b : Q} (ha : 0 < a.den) (hb : 0 < b.den) :
    (Q.qmin a b).toRat ≤ a.toRat := by
  unfold Q.qmin
  split
  · next h => exact le_of_lt ((Q.blt_iff hb ha).mp h)
  · exact le_refl _

theorem Q.sub_den (a b : Q) : (a - b).den = a.den * b.den := rfl

theorem Q.toRat_sub {a b : Q} (ha : 0 < a.den) (hb : 0 < b.den) :
    (a - b).toRat = a.toRat - b.toRat := by
  show (Q.sub a b).toRat = _
  unfold Q.sub Q.toRat
  have ha' : (a.den : ℚ) ≠ 0 := by positivity
  have hb' : (b.den : ℚ) ≠ 0 := by positivity
  field_simp
  ring

theorem Q.toRat_ofNat (n : ℕ) : (Q.ofNat n).toRat = n := by
  unfold Q.ofNat Q.toRat
  simp

/-! ### Word-count and sample-length bounds (claim C3's token usage) -/

theorem wordsAux_length_le : ∀ (s : Str) (cur : Str),
    (wordsAux s cur).length ≤ s.length + 1 := by
  intro s
  induction s with
  | nil =>
    intro cur
    rw [wordsAux]
    split <;> simp
  | cons c rest ih =>
    intro cur
    rw [wordsAux]
    by_cases hc : isSpaceChar c
    · rw [if_pos hc]
      by_cases hcur : cur.isEmpty
      · rw [if_pos hcur]
        calc (wordsAux rest []).length ≤ rest.length + 1 := ih []
          _ ≤ (c :: rest).length + 1 := by simp
      · rw [if_neg hcur]
        simp only [List.length_cons]
        have := ih ([] : Str)
        omega
    · rw [if_neg hc]
      calc (wordsAux rest (c :: cur)).length ≤ rest.length + 1 := ih _
        _ ≤ (c :: rest).length + 1 := by simp

/-- A text of length `L` has at most `L` words (each word is nonempty). -/
theorem pyWords_length_le (s : Str) : (pyWords s).length ≤ s.length + 1 :=
  wordsAux_length_le s []

theorem joinWith_length_le (sep : Str) : ∀ ls : List Str,
    (joinWith sep ls).length ≤ (ls.map List.length).sum + sep.length * ls.length := by
  intro ls
  induction ls with
  | nil => simp [joinWith]
  | cons x tail ih =>
    cases tail with
    | nil => simp [joinWith]
    | cons y rest =>
      rw [joinWith]
      simp only [List.length_append, List.map_cons, List.sum_cons, List.length_cons] at ih ⊢
      have hmul : sep.length * (rest.length + 1 + 1) =
          sep.length * (rest.length + 1) + sep.length := by ring
      rw [hmul]
      omega

/-- The 500-character samples of at most 5 chunks, joined by newlines,
have length at most 2505. -/
theorem content_sample_length_le (chunks : List LogChunk) :
    (joinWith ['\n'] ((chunks.take 5).map (fun ch => ch.content.take 500))).length ≤ 2505 := by
  have hlen : ((chunks.take 5).map (fun ch => ch.content.take 500)).length ≤ 5 := by
    rw [List.length_map]
    exact List.length_take_le 5 chunks
  have hev : ∀ x ∈ ((chunks.take 5).map (fun ch => ch.content.take 500)).map List.length,
      x ≤ 500 := by
    intro x hx
    obtain ⟨w, hw, hwl⟩ := List.mem_map.mp hx
    obtain ⟨ch, _, hch⟩ := List.mem_map.mp hw
    rw [← hwl, ← hch]
    exact List.length_take_le 500 ch.content
  have hsum : (((chunks.take 5).map (fun ch => ch.content.take 500)).map List.length).sum ≤
      5 * 500 := by
    calc (((chunks.take 5).map (fun ch => ch.content.take 500)).map List.length).sum
        ≤ (((chunks.take 5).map (fun ch => ch.content.take 500)).map List.length).length • 500 :=
          List.sum_le_card_nsmul _ 500 hev
      _ ≤ 5 * 500 := by
          simp only [smul_eq_mul, List.length_map]
          have := hlen
          rw [List.length_map] at this
          omega
  calc (joinWith ['\n'] ((chunks.take 5).map (fun ch => ch.content.take 500))).length
      ≤ (((chunks.take 5).map (fun ch => ch.content.take 500)).map List.length).sum +
          1 * ((chunks.take 5).map (fun ch => ch.content.take 500)).length :=
        joinWith_length_le ['\n'] _
    _ ≤ 5 * 500 + 1 * 5 := by
        have := hlen
        omega
    _ = 2505 := by norm_num

/-- The token usage reported by one iteration is a rational with positive
denominator, bounded by `2506 * 1.3 = 3257.8`. -/
theorem token_usage_bound (chunks : List LogChunk) (budget : Q) (hb : 0 < budget.den) :
    0 < (Q.qmin (estimate_tokens
        (joinWith ['\n'] ((chunks.take 5).map (fun ch => ch.content.take 500)))) budget).den ∧
      (Q.qmin (estimate_tokens
        (joinWith ['\n'] ((chunks.take 5).map (fun ch => ch.content.take 500)))) budget).toRat ≤
        16289 / 5 := by
  set s := joinWith ['\n'] ((chunks.take 5).map (fun ch => ch.content.take 500)) with hs
  have hden : (estimate_tokens s).den = 10 := rfl
  have hdpos : 0 < (estimate_tokens s).den := by rw [hden]; norm_num
  refine ⟨Q.qmin_den hdpos hb, ?_⟩
  have hwords : (pyWords s).length ≤ 2506 := by
    have h1 := pyWords_length_le s
    have h2 := content_sample_length_le chunks
    rw [← hs] at h2
    omega
  have hval : (estimate_tokens s).toRat = ((pyWords s).length : ℚ) * 13 / 10 := by
    show (Q.mul (Q.ofNat (pyWords s).length) (q 13 10)).toRat = _
    unfold Q.mul Q.ofNat Q.toRat q
    push_cast
    ring
  calc (Q.qmin (estimate_tokens s) budget).toRat
      ≤ (estimate_tokens s).toRat := Q.qmin_le_left hdpos hb
    _ = ((pyWords s).length : ℚ) * 13 / 10 := hval
    _ ≤ 2506 * 13 / 10 := by
        have : ((pyWords s).length : ℚ) ≤ 2506 := by exact_mod_cast hwords
        linarith
    _ = 16289 / 5 := by norm_num

/-! ### One iteration of the controller (claim C3) -/

/-- With a workable chunk size, `_analyze_iteration` returns normally;
its token usage is bounded (at most 5 samples of at most 500 characters),
and every error it reports stems from a catalog entry of the narrowed
catalog whose patterns matched one of the input's line windows. -/
theorem analyze_iteration_spec (a : LogAnalyzer) (docs : List (String × String))
    (sq : Option String) (target : Catalog) (climit : ℕ) (budget : Q)
    (hstep : a.chunk_size / 100 ≠ 0) (hb : 0 < budget.den) :
    ∃ ir, analyze_iteration a docs sq target climit budget = some ir ∧
      0 < ir.token_usage.den ∧ ir.token_usage.toRat ≤ 16289 / 5 ∧
      ∀ s ∈ ir.errors, ∃ cfg, target.lookup s.error_type = some cfg ∧
        s.severity = cfg.severity ∧
        ∃ w ∈ allWindows docs (a.chunk_size / 100),
          s.error_type ∈ find_error_indicators target w := by
  obtain ⟨l, hl, hlm⟩ :=
    chunk_and_prioritize_logs_some { a with error_patterns := target } docs sq hstep
  have hai : analyze_iteration a docs sq target climit budget = some
      { errors := analyze_errors target a.solution_templates (l.take climit),
        chunks := l.take climit,
        token_usage := Q.qmin (estimate_tokens (joinWith ['\n']
          (((l.take climit).take 5).map (fun ch => ch.content.take 500)))) budget } := by
    unfold analyze_iteration analyze_iteration_st
    simp only [hl]
  refine ⟨_, hai, ?_, ?_, ?_⟩
  · exact (token_usage_bound (l.take climit) budget hb).1
  · exact (token_usage_bound (l.take climit) budget hb).2
  · intro s hs
    obtain ⟨cfg, hcfg, hsev, ch, hch, hind⟩ := analyze_errors_origin hs
    refine ⟨cfg, hcfg, hsev, ch.content, ?_, ?_⟩
    · exact (hlm ch (List.mem_of_mem_take hch)).1
    · rw [← (hlm ch (List.mem_of_mem_take hch)).2]
      exact hind

/-- In `round0Catalog` (the top-3 subset searched in round 1), the only
critical-severity entry is `memory_errors`, whose patterns are
`catalogMemoryPatterns`. -/
theorem round0_critical_is_memory :
    ∀ kv ∈ round0Catalog, kv.2.severity = "critical" →
      kv.2.patterns = catalogMemoryPatterns := by decide

/-- The keys of `round0Catalog` are distinct, so any two entries with the
same key are the same entry. -/
theorem round0_keys_unique :
    ∀ kv ∈ round0Catalog, ∀ kv' ∈ round0Catalog, kv.1 = kv'.1 → kv.2 = kv'.2 := by decide

/-- Round 1 of the iterative analysis cannot find a critical-severity
summary when no `memory_errors` pattern matches any line window. -/
theorem round0_no_critical (a : LogAnalyzer) (docs : List (String × String))
    {ir : IterResult}
    (hmem : ∀ w ∈ allWindows docs (a.chunk_size / 100),
      ∀ p ∈ catalogMemoryPatterns, countPat p w = 0)
    (hspec : ∀ s ∈ ir.errors, ∃ cfg, round0Catalog.lookup s.error_type = some cfg ∧
      s.severity = cfg.severity ∧
      ∃ w ∈ allWindows docs (a.chunk_size / 100),
        s.error_type ∈ find_error_indicators round0Catalog w) :
    ir.errors.filter (fun e => e.severity = "critical") = [] := by
  rw [List.filter_eq_nil_iff]
  intro s hs hcrit
  have hcrit' : s.severity = "critical" := by
    simpa using hcrit
  obtain ⟨cfg, hcfg, hsev, w, hw, hind⟩ := hspec s hs
  have hmemk : (s.error_type, cfg) ∈ round0Catalog := lookup_mem hcfg
  have hcfgsev : cfg.severity = "critical" := by rw [← hsev, hcrit']
  have hpats : cfg.patterns = catalogMemoryPatterns :=
    round0_critical_is_memory (s.error_type, cfg) hmemk hcfgsev
  obtain ⟨cfg', hmemk', hany⟩ := find_error_indicators_origin hind
  have hcfg' : cfg' = cfg :=
    round0_keys_unique (s.error_type, cfg') hmemk' (s.error_type, cfg) hmemk rfl
  rw [hcfg', hpats] at hany
  obtain ⟨p, hp, htest⟩ := List.any_eq_true.mp hany
  have hpos : 0 < countPat p w := of_decide_eq_true htest
  rw [hmem w hw p hp] at hpos
  exact absurd hpos (by norm_num)

/-- Plain equation lemmas for the loop (definitional). -/
theorem iterLoop_zero (a : LogAnalyzer) (docs : List (String × String)) (sq : Option String)
    (sp : Catalog) (iteration : ℕ) (st : IterState) :
    iterLoop a docs sq sp iteration 0 st = some st := rfl

theorem iterLoop_succ (a : LogAnalyzer) (docs : List (String × String)) (sq : Option String)
    (sp : Catalog) (iteration rem : ℕ) (st : IterState) :
    iterLoop a docs sq sp iteration (rem + 1) st =
      (match analyze_iteration a docs sq (iterTargets sp iteration).1
          (iterTargets sp iteration).2 st.token_budget with
      | none => none
      | some ir =>
        let st' : IterState :=
          { all_errors := st.all_errors ++ ir.errors,
            analyzed_chunks := st.analyzed_chunks ++ ir.chunks,
            iteration_results := st.iteration_results ++
              [{ iteration := iteration + 1,
                 patterns_searched := (iterTargets sp iteration).1.map (fun kv => kv.1),
                 errors_found := ir.errors.length, chunks_analyzed := ir.chunks.length,
                 token_usage := ir.token_usage }],
            token_budget := st.token_budget - ir.token_usage }
        if (ir.errors.filter (fun e => e.severity = "critical")) ≠ [] ∧ iteration = 0 then some st'
        else if Q.blt st'.token_budget (Q.ofNat 1000) then some st'
        else iterLoop a docs sq sp (iteration + 1) rem st') := by
  rw [iterLoop]

/-- The loop body once the iteration result is known (`rfl` after
reducing the `match`). -/
theorem iterLoop_succ_some (a : LogAnalyzer) (docs : List (String × String))
    (sq : Option String) (sp : Catalog) (iteration rem : ℕ) (st : IterState) (ir : IterResult)
    (hai : analyze_iteration a docs sq (iterTargets sp iteration).1
      (iterTargets sp iteration).2 st.token_budget = some ir) :
    iterLoop a docs sq sp iteration (rem + 1) st =
      (if (ir.errors.filter (fun e => e.severity = "critical")) ≠ [] ∧ iteration = 0 then
        some ({ all_errors := st.all_errors ++ ir.errors, analyzed_chunks := st.analyzed_chunks ++ ir.chunks, iteration_results := st.iteration_results ++ [{ iteration := iteration + 1, patterns_searched := (iterTargets sp iteration).1.map (fun kv => kv.1), errors_found := ir.errors.length, chunks_analyzed := ir.chunks.length, token_usage := ir.token_usage }], token_budget := st.token_budget - ir.token_usage } : IterState)
      else if Q.blt (st.token_budget - ir.token_usage) (Q.ofNat 1000) then
        some ({ all_errors := st.all_errors ++ ir.errors, analyzed_chunks := st.analyzed_chunks ++ ir.chunks, iteration_results := st.iteration_results ++ [{ iteration := iteration + 1, patterns_searched := (iterTargets sp iteration).1.map (fun kv => kv.1), errors_found := ir.errors.length, chunks_analyzed := ir.chunks.length, token_usage := ir.token_usage }], token_budget := st.token_budget - ir.token_usage } : IterState)
      else iterLoop a docs sq sp (iteration + 1) rem ({ all_errors := st.all_errors ++ ir.errors, analyzed_chunks := st.analyzed_chunks ++ ir.chunks, iteration_results := st.iteration_results ++ [{ iteration := iteration + 1, patterns_searched := (iterTargets sp iteration).1.map (fun kv => kv.1), errors_found := ir.errors.length, chunks_analyzed := ir.chunks.length, token_usage := ir.token_usage }], token_budget := st.token_budget - ir.token_usage } : IterState)) := by
  rw [iterLoop, hai]

/-- The iterative controller runs all three rounds when round 1 finds no
critical category and the budget cannot be exhausted. -/
theorem iterCore_three_rounds (limit cs : ℕ) (docs : List (String × String))
    (sq : Option String) (hcs : 100 ≤ cs) (hlim : 8000 ≤ limit)
    (hmem : ∀ w ∈ allWindows docs (cs / 100), ∀ p ∈ catalogMemoryPatterns, countPat p w = 0) :
    ∃ st, iterCore (mkLogAnalyzer limit cs) docs sq 3 = some st ∧
      st.iteration_results.length = 3 := by
  set a := mkLogAnalyzer limit cs with ha
  have hacs : a.chunk_size = cs := rfl
  have hstep : a.chunk_size / 100 ≠ 0 := by
    have h1 : 1 ≤ cs / 100 := (Nat.one_le_div_iff (by norm_num)).mpr hcs
    rw [hacs]
    omega
  have hmem' : ∀ w ∈ allWindows docs (a.chunk_size / 100),
      ∀ p ∈ catalogMemoryPatterns, countPat p w = 0 := by rw [hacs]; exact hmem
  set sp := pySortedRev natLtB (fun kv => kv.2.priority) a.error_patterns with hsp
  have hsp0 : (iterTargets sp 0).1 = round0Catalog := rfl
  set st0 : IterState := ({ all_errors := [], analyzed_chunks := [], iteration_results := [], token_budget := Q.ofNat a.max_token_limit } : IterState) with hst0
  have hb0den : 0 < st0.token_budget.den := by norm_num [hst0, Q.ofNat]
  have hb0val : st0.token_budget.toRat = limit := by
    have h2 : a.max_token_limit = limit := rfl
    rw [hst0]
    show (Q.ofNat a.max_token_limit).toRat = _
    rw [h2]
    exact Q.toRat_ofNat limit
  have hlimQ : (8000 : ℚ) ≤ (limit : ℚ) := by exact_mod_cast hlim
  have h1000den : 0 < (Q.ofNat 1000).den := by norm_num [Q.ofNat]
  -- round 1
  obtain ⟨ir0, hai0, hu0den, hu0val, hspec0⟩ :=
    analyze_iteration_spec a docs sq (iterTargets sp 0).1 (iterTargets sp 0).2
      st0.token_budget hstep hb0den
  have hcrit0 : ir0.errors.filter (fun e => e.severity = "critical") = [] := by
    refine round0_no_critical a docs hmem' ?_
    rw [← hsp0]
    exact hspec0
  have hb1den : 0 < (st0.token_budget - ir0.token_usage).den := by
    rw [Q.sub_den]
    exact Nat.mul_pos hb0den hu0den
  have hb1val : (st0.token_budget - ir0.token_usage).toRat =
      (limit : ℚ) - ir0.token_usage.toRat := by
    rw [Q.toRat_sub hb0den hu0den, hb0val]
  have hblt1 : Q.blt (st0.token_budget - ir0.token_usage) (Q.ofNat 1000) = false := by
    rw [← Bool.not_eq_true]
    intro hc
    have := (Q.blt_iff hb1den h1000den).mp hc
    rw [hb1val, Q.toRat_ofNat] at this
    push_cast at this
    linarith
  -- round 2
  obtain ⟨ir1, hai1, hu1den, hu1val, -⟩ :=
    analyze_iteration_spec a docs sq (iterTargets sp 1).1 (iterTargets sp 1).2
      (st0.token_budget - ir0.token_usage) hstep hb1den
  have hb2den : 0 < (st0.token_budget - ir0.token_usage - ir1.token_usage).den := by
    rw [Q.sub_den]
    exact Nat.mul_pos hb1den hu1den
  have hb2val : (st0.token_budget - ir0.token_usage - ir1.token_usage).toRat =
      (limit : ℚ) - ir0.token_usage.toRat - ir1.token_usage.toRat := by
    rw [Q.toRat_sub hb1den hu1den, hb1val]
  have hblt2 : Q.blt (st0.token_budget - ir0.token_usage - ir1.token_usage)
      (Q.ofNat 1000) = false := by
    rw [← Bool.not_eq_true]
    intro hc
    have := (Q.blt_iff hb2den h1000den).mp hc
    rw [hb2val, Q.toRat_ofNat] at this
    push_cast at this
    linarith
  -- round 3
  obtain ⟨ir2, hai2, -, -, -⟩ :=
    analyze_iteration_spec a docs sq (iterTargets sp 2).1 (iterTargets sp 2).2
      (st0.token_budget - ir0.token_usage - ir1.token_usage) hstep hb2den
  refine ⟨({ all_errors := ({ all_errors := ({ all_errors := st0.all_errors ++ ir0.errors, analyzed_chunks := st0.analyzed_chunks ++ ir0.chunks, iteration_results := st0.iteration_results ++ [{ iteration := 0 + 1, patterns_searched := (iterTargets sp 0).1.map (fun kv => kv.1), errors_found := ir0.errors.length, chunks_analyzed := ir0.chunks.length, token_usage := ir0.token_usage }], token_budget := st0.token_budget - ir0.token_usage } : IterState).all_errors ++ ir1.errors, analyzed_chunks := ({ all_errors := st0.all_errors ++ ir0.errors, analyzed_chunks := st0.analyzed_chunks ++ ir0.chunks, iteration_results := st0.iteration_results ++ [{ iteration := 0 + 1, patterns_searched := (iterTargets sp 0).1.map (fun kv => kv.1), errors_found := ir0.errors.length, chunks_analyzed := ir0.chunks.length, token_usage := ir0.token_usage }], token_budget := st0.token_budget - ir0.token_usage } : IterState).analyzed_chunks ++ ir1.chunks, iteration_results := ({ all_errors := st0.all_errors ++ ir0.errors, analyzed_chunks := st0.analyzed_chunks ++ ir0.chunks, iteration_results := st0.iteration_results ++ [{ iteration := 0 + 1, patterns_searched := (iterTargets sp 0).1.map (fun kv => kv.1), errors_found := ir0.errors.length, chunks_analyzed := ir0.chunks.length, token_usage := ir0.token_usage }], token_budget := st0.token_budget - ir0.token_usage } : IterState).iteration_results ++ [{ iteration := 1 + 1, patterns_searched := (iterTargets sp 1).1.map (fun kv => kv.1), errors_found := ir1.errors.length, chunks_analyzed := ir1.chunks.length, token_usage := ir1.token_usage }], token_budget := ({ all_errors := st0.all_errors ++ ir0.errors, analyzed_chunks := st0.analyzed_chunks ++ ir0.chunks, iteration_results := st0.iteration_results ++ [{ iteration := 0 + 1, patterns_searched := (iterTargets sp 0).1.map (fun kv => kv.1), errors_found := ir0.errors.length, chunks_analyzed := ir0.chunks.length, token_usage := ir0.token_usage }], token_budget := st0.token_budget - ir0.token_usage } : IterState).token_budget - ir1.token_usage } : IterState).all_errors ++ ir2.errors, analyzed_chunks := ({ all_errors := ({ all_errors := st0.all_errors ++ ir0.errors, analyzed_chunks := st0.analyzed_chunks ++ ir0.chunks, iteration_results := st0.iteration_results ++ [{ iteration := 0 + 1, patterns_searched := (iterTargets sp 0).1.map (fun kv => kv.1), errors_found := ir0.errors.length, chunks_analyzed := ir0.chunks.length, token_usage := ir0.token_usage }], token_budget := st0.token_budget - ir0.token_usage } : IterState).all_errors ++ ir1.errors, analyzed_chunks := ({ all_errors := st0.all_errors ++ ir0.errors, analyzed_chunks := st0.analyzed_chunks ++ ir0.chunks, iteration_results := st0.iteration_results ++ [{ iteration := 0 + 1, patterns_searched := (iterTargets sp 0).1.map (fun kv => kv.1), errors_found := ir0.errors.length, chunks_analyzed := ir0.chunks.length, token_usage := ir0.token_usage }], token_budget := st0.token_budget - ir0.token_usage } : IterState).analyzed_chunks ++ ir1.chunks, iteration_results := ({ all_errors := st0.all_errors ++ ir0.errors, analyzed_chunks := st0.analyzed_chunks ++ ir0.chunks, iteration_results := st0.iteration_results ++ [{ iteration := 0 + 1, patterns_searched := (iterTargets sp 0).1.map (fun kv => kv.1), errors_found := ir0.errors.length, chunks_analyzed := ir0.chunks.length, token_usage := ir0.token_usage }], token_budget := st0.token_budget - ir0.token_usage } : IterState).iteration_results ++ [{ iteration := 1 + 1, patterns_searched := (iterTargets sp 1).1.map (fun kv => kv.1), errors_found := ir1.errors.length, chunks_analyzed := ir1.chunks.length, token_usage := ir1.token_usage }], token_budget := ({ all_errors := st0.all_errors ++ ir0.errors, analyzed_chunks := st0.analyzed_chunks ++ ir0.chunks, iteration_results := st0.iteration_results ++ [{ iteration := 0 + 1, patterns_searched := (iterTargets sp 0).1.map (fun kv => kv.1), errors_found := ir0.errors.length, chunks_analyzed := ir0.chunks.length, token_usage := ir0.token_usage }], token_budget := st0.token_budget - ir0.token_usage } : IterState).token_budget - ir1.token_usage } : IterState).analyzed_chunks ++ ir2.chunks, iteration_results := ({ all_errors := ({ all_errors := st0.all_errors ++ ir0.errors, analyzed_chunks := st0.analyzed_chunks ++ ir0.chunks, iteration_results := st0.iteration_results ++ [{ iteration := 0 + 1, patterns_searched := (iterTargets sp 0).1.map (fun kv => kv.1), errors_found := ir0.errors.length, chunks_analyzed := ir0.chunks.length, token_usage := ir0.token_usage }], token_budget := st0.token_budget - ir0.token_usage } : IterState).all_errors ++ ir1.errors, analyzed_chunks := ({ all_errors := st0.all_errors ++ ir0.errors, analyzed_chunks := st0.analyzed_chunks ++ ir0.chunks, iteration_results := st0.iteration_results ++ [{ iteration := 0 + 1, patterns_searched := (iterTargets sp 0).1.map (fun kv => kv.1), errors_found := ir0.errors.length, chunks_analyzed := ir0.chunks.length, token_usage := ir0.token_usage }], token_budget := st0.token_budget - ir0.token_usage } : IterState).analyzed_chunks ++ ir1.chunks, iteration_results := ({ all_errors := st0.all_errors ++ ir0.errors, analyzed_chunks := st0.analyzed_chunks ++ ir0.chunks, iteration_results := st0.iteration_results ++ [{ iteration := 0 + 1, patterns_searched := (iterTargets sp 0).1.map (fun kv => kv.1), errors_found := ir0.errors.length, chunks_analyzed := ir0.chunks.length, token_usage := ir0.token_usage }], token_budget := st0.token_budget - ir0.token_usage } : IterState).iteration_results ++ [{ iteration := 1 + 1, patterns_searched := (iterTargets sp 1).1.map (fun kv => kv.1), errors_found := ir1.errors.length, chunks_analyzed := ir1.chunks.length, token_usage := ir1.token_usage }], token_budget := ({ all_errors := st0.all_errors ++ ir0.errors, analyzed_chunks := st0.analyzed_chunks ++ ir0.chunks, iteration_results := st0.iteration_results ++ [{ iteration := 0 + 1, patterns_searched := (iterTargets sp 0).1.map (fun kv => kv.1), errors_found := ir0.errors.length, chunks_analyzed := ir0.chunks.length, token_usage := ir0.token_usage }], token_budget := st0.token_budget - ir0.token_usage } : IterState).token_budget - ir1.token_usage } : IterState).iteration_results ++ [{ iteration := 2 + 1, patterns_searched := (iterTargets sp 2).1.map (fun kv => kv.1), errors_found := ir2.errors.length, chunks_analyzed := ir2.chunks.length, token_usage := ir2.token_usage }], token_budget := ({ all_errors := ({ all_errors := st0.all_errors ++ ir0.errors, analyzed_chunks := st0.analyzed_chunks ++ ir0.chunks, iteration_results := st0.iteration_results ++ [{ iteration := 0 + 1, patterns_searched := (iterTargets sp 0).1.map (fun kv => kv.1), errors_found := ir0.errors.length, chunks_analyzed := ir0.chunks.length, token_usage := ir0.token_usage }], token_budget := st0.token_budget - ir0.token_usage } : IterState).all_errors ++ ir1.errors, analyzed_chunks := ({ all_errors := st0.all_errors ++ ir0.errors, analyzed_chunks := st0.analyzed_chunks ++ ir0.chunks, iteration_results := st0.iteration_results ++ [{ iteration := 0 + 1, patterns_searched := (iterTargets sp 0).1.map (fun kv => kv.1), errors_found := ir0.errors.length, chunks_analyzed := ir0.chunks.length, token_usage := ir0.token_usage }], token_budget := st0.token_budget - ir0.token_usage } : IterState).analyzed_chunks ++ ir1.chunks, iteration_results := ({ all_errors := st0.all_errors ++ ir0.errors, analyzed_chunks := st0.analyzed_chunks ++ ir0.chunks, iteration_results := st0.iteration_results ++ [{ iteration := 0 + 1, patterns_searched := (iterTargets sp 0).1.map (fun kv => kv.1), errors_found := ir0.errors.length, chunks_analyzed := ir0.chunks.length, token_usage := ir0.token_usage }], token_budget := st0.token_budget - ir0.token_usage } : IterState).iteration_results ++ [{ iteration := 1 + 1, patterns_searched := (iterTargets sp 1).1.map (fun kv => kv.1), errors_found := ir1.errors.length, chunks_analyzed := ir1.chunks.length, token_usage := ir1.token_usage }], token_budget := ({ all_errors := st0.all_errors ++ ir0.errors, analyzed_chunks := st0.analyzed_chunks ++ ir0.chunks, iteration_results := st0.iteration_results ++ [{ iteration := 0 + 1, patterns_searched := (iterTargets sp 0).1.map (fun kv => kv.1), errors_found := ir0.errors.length, chunks_analyzed := ir0.chunks.length, token_usage := ir0.token_usage }], token_budget := st0.token_budget - ir0.token_usage } : IterState).token_budget - ir1.token_usage } : IterState).token_budget - ir2.token_usage } : IterState), ?_, ?_⟩
  · show iterLoop a docs sq sp 0 3 st0 = _
    have e1 : iterLoop a docs sq sp 0 3 st0 = iterLoop a docs sq sp 1 2 ({ all_errors := st0.all_errors ++ ir0.errors, analyzed_chunks := st0.analyzed_chunks ++ ir0.chunks, iteration_results := st0.iteration_results ++ [{ iteration := 0 + 1, patterns_searched := (iterTargets sp 0).1.map (fun kv => kv.1), errors_found := ir0.errors.length, chunks_analyzed := ir0.chunks.length, token_usage := ir0.token_usage }], token_budget := st0.token_budget - ir0.token_usage } : IterState) := by
      rw [iterLoop_succ_some a docs sq sp 0 2 st0 ir0 hai0]
      rw [if_neg (by simp [hcrit0])]
      rw [if_neg (by simp [hblt1])]
    have e2 : iterLoop a docs sq sp 1 2 ({ all_errors := st0.all_errors ++ ir0.errors, analyzed_chunks := st0.analyzed_chunks ++ ir0.chunks, iteration_results := st0.iteration_results ++ [{ iteration := 0 + 1, patterns_searched := (iterTargets sp 0).1.map (fun kv => kv.1), errors_found := ir0.errors.length, chunks_analyzed := ir0.chunks.length, token_usage := ir0.token_usage }], token_budget := st0.token_budget - ir0.token_usage } : IterState) =
        iterLoop a docs sq sp 2 1 ({ all_errors := ({ all_errors := st0.all_errors ++ ir0.errors, analyzed_chunks := st0.analyzed_chunks ++ ir0.chunks, iteration_results := st0.iteration_results ++ [{ iteration := 0 + 1, patterns_searched := (iterTargets sp 0).1.map (fun kv => kv.1), errors_found := ir0.errors.length, chunks_analyzed := ir0.chunks.length, token_usage := ir0.token_usage }], token_budget := st0.token_budget - ir0.token_usage } : IterState).all_errors ++ ir1.errors, analyzed_chunks := ({ all_errors := st0.all_errors ++ ir0.errors, analyzed_chunks := st0.analyzed_chunks ++ ir0.chunks, iteration_results := st0.iteration_results ++ [{ iteration := 0 + 1, patterns_searched := (iterTargets sp 0).1.map (fun kv => kv.1), errors_found := ir0.errors.length, chunks_analyzed := ir0.chunks.length, token_usage := ir0.token_usage }], token_budget := st0.token_budget - ir0.token_usage } : IterState).analyzed_chunks ++ ir1.chunks, iteration_results := ({ all_errors := st0.all_errors ++ ir0.errors, analyzed_chunks := st0.analyzed_chunks ++ ir0.chunks, iteration_results := st0.iteration_results ++ [{ iteration := 0 + 1, patterns_searched := (iterTargets sp 0).1.map (fun kv => kv.1), errors_found := ir0.errors.length, chunks_analyzed := ir0.chunks.length, token_usage := ir0.token_usage }], token_budget := st0.token_budget - ir0.token_usage } : IterState).iteration_results ++ [{ iteration := 1 + 1, patterns_searched := (iterTargets sp 1).1.map (fun kv => kv.1), errors_found := ir1.errors.length, chunks_analyzed := ir1.chunks.length, token_usage := ir1.token_usage }], token_budget := ({ all_errors := st0.all_errors ++ ir0.errors, analyzed_chunks := st0.analyzed_chunks ++ ir0.chunks, iteration_results := st0.iteration_results ++ [{ iteration := 0 + 1, patterns_searched := (iterTargets sp 0).1.map (fun kv => kv.1), errors_found := ir0.errors.length, chunks_analyzed := ir0.chunks.length, token_usage := ir0.token_usage }], token_budget := st0.token_budget - ir0.token_usage } : IterState).token_budget - ir1.token_usage } : IterState) := by
      rw [iterLoop_succ_some a docs sq sp 1 1 ({ all_errors := st0.all_errors ++ ir0.errors, analyzed_chunks := st0.analyzed_chunks ++ ir0.chunks, iteration_results := st0.iteration_results ++ [{ iteration := 0 + 1, patterns_searched := (iterTargets sp 0).1.map (fun kv => kv.1), errors_found := ir0.errors.length, chunks_analyzed := ir0.chunks.length, token_usage := ir0.token_usage }], token_budget := st0.token_budget - ir0.token_usage } : IterState) ir1 hai1]
      rw [if_neg (by rintro ⟨-, hc⟩; omega)]
      rw [if_neg (show ¬(Q.blt (st0.token_budget - ir0.token_usage - ir1.token_usage) (Q.ofNat 1000) = true) by simp [hblt2])]
    have e3 : iterLoop a docs sq sp 2 1 ({ all_errors := ({ all_errors := st0.all_errors ++ ir0.errors, analyzed_chunks := st0.analyzed_chunks ++ ir0.chunks, iteration_results := st0.iteration_results ++ [{ iteration := 0 + 1, patterns_searched := (iterTargets sp 0).1.map (fun kv => kv.1), errors_found := ir0.errors.length, chunks_analyzed := ir0.chunks.length, token_usage := ir0.token_usage }], token_budget := st0.token_budget - ir0.token_usage } : IterState).all_errors ++ ir1.errors, analyzed_chunks := ({ all_errors := st0.all_errors ++ ir0.errors, analyzed_chunks := st0.analyzed_chunks ++ ir0.chunks, iteration_results := st0.iteration_results ++ [{ iteration := 0 + 1, patterns_searched := (iterTargets sp 0).1.map (fun kv => kv.1), errors_found := ir0.errors.length, chunks_analyzed := ir0.chunks.length, token_usage := ir0.token_usage }], token_budget := st0.token_budget - ir0.token_usage } : IterState).analyzed_chunks ++ ir1.chunks, iteration_results := ({ all_errors := st0.all_errors ++ ir0.errors, analyzed_chunks := st0.analyzed_chunks ++ ir0.chunks, iteration_results := st0.iteration_results ++ [{ iteration := 0 + 1, patterns_searched := (iterTargets sp 0).1.map (fun kv => kv.1), errors_found := ir0.errors.length, chunks_analyzed := ir0.chunks.length, token_usage := ir0.token_usage }], token_budget := st0.token_budget - ir0.token_usage } : IterState).iteration_results ++ [{ iteration := 1 + 1, patterns_searched := (iterTargets sp 1).1.map (fun kv => kv.1), errors_found := ir1.errors.length, chunks_analyzed := ir1.chunks.length, token_usage := ir1.token_usage }], token_budget := ({ all_errors := st0.all_errors ++ ir0.errors, analyzed_chunks := st0.analyzed_chunks ++ ir0.chunks, iteration_results := st0.iteration_results ++ [{ iteration := 0 + 1, patterns_searched := (iterTargets sp 0).1.map (fun kv => kv.1), errors_found := ir0.errors.length, chunks_analyzed := ir0.chunks.length, token_usage := ir0.token_usage }], token_budget := st0.token_budget - ir0.token_usage } : IterState).token_budget - ir1.token_usage } : IterState) = some ({ all_errors := ({ all_errors := ({ all_errors := st0.all_errors ++ ir0.errors, analyzed_chunks := st0.analyzed_chunks ++ ir0.chunks, iteration_results := st0.iteration_results ++ [{ iteration := 0 + 1, patterns_searched := (iterTargets sp 0).1.map (fun kv => kv.1), errors_found := ir0.errors.length, chunks_analyzed := ir0.chunks.length, token_usage := ir0.token_usage }], token_budget := st0.token_budget - ir0.token_usage } : IterState).all_errors ++ ir1.errors, analyzed_chunks := ({ all_errors := st0.all_errors ++ ir0.errors, analyzed_chunks := st0.analyzed_chunks ++ ir0.chunks, iteration_results := st0.iteration_results ++ [{ iteration := 0 + 1, patterns_searched := (iterTargets sp 0).1.map (fun kv => kv.1), errors_found := ir0.errors.length, chunks_analyzed := ir0.chunks.length, token_usage := ir0.token_usage }], token_budget := st0.token_budget - ir0.token_usage } : IterState).analyzed_chunks ++ ir1.chunks, iteration_results := ({ all_errors := st0.all_errors ++ ir0.errors, analyzed_chunks := st0.analyzed_chunks ++ ir0.chunks, iteration_results := st0.iteration_results ++ [{ iteration := 0 + 1, patterns_searched := (iterTargets sp 0).1.map (fun kv => kv.1), errors_found := ir0.errors.length, chunks_analyzed := ir0.chunks.length, token_usage := ir0.token_usage }], token_budget := st0.token_budget - ir0.token_usage } : IterState).iteration_results ++ [{ iteration := 1 + 1, patterns_searched := (iterTargets sp 1).1.map (fun kv => kv.1), errors_found := ir1.errors.length, chunks_analyzed := ir1.chunks.length, token_usage := ir1.token_usage }], token_budget := ({ all_errors := st0.all_errors ++ ir0.errors, analyzed_chunks := st0.analyzed_chunks ++ ir0.chunks, iteration_results := st0.iteration_results ++ [{ iteration := 0 + 1, patterns_searched := (iterTargets sp 0).1.map (fun kv => kv.1), errors_found := ir0.errors.length, chunks_analyzed := ir0.chunks.length, token_usage := ir0.token_usage }], token_budget := st0.token_budget - ir0.token_usage } : IterState).token_budget - ir1.token_usage } : IterState).all_errors ++ ir2.errors, analyzed_chunks := ({ all_errors := ({ all_errors := st0.all_errors ++ ir0.errors, analyzed_chunks := st0.analyzed_chunks ++ ir0.chunks, iteration_results := st0.iteration_results ++ [{ iteration := 0 + 1, patterns_searched := (iterTargets sp 0).1.map (fun kv => kv.1), errors_found := ir0.errors.length, chunks_analyzed := ir0.chunks.length, token_usage := ir0.token_usage }], token_budget := st0.token_budget - ir0.token_usage } : IterState).all_errors ++ ir1.errors, analyzed_chunks := ({ all_errors := st0.all_errors ++ ir0.errors, analyzed_chunks := st0.analyzed_chunks ++ ir0.chunks, iteration_results := st0.iteration_results ++ [{ iteration := 0 + 1, patterns_searched := (iterTargets sp 0).1.map (fun kv => kv.1), errors_found := ir0.errors.length, chunks_analyzed := ir0.chunks.length, token_usage := ir0.token_usage }], token_budget := st0.token_budget - ir0.token_usage } : IterState).analyzed_chunks ++ ir1.chunks, iteration_results := ({ all_errors := st0.all_errors ++ ir0.errors, analyzed_chunks := st0.analyzed_chunks ++ ir0.chunks, iteration_results := st0.iteration_results ++ [{ iteration := 0 + 1, patterns_searched := (iterTargets sp 0).1.map (fun kv => kv.1), errors_found := ir0.errors.length, chunks_analyzed := ir0.chunks.length, token_usage := ir0.token_usage }], token_budget := st0.token_budget - ir0.token_usage } : IterState).iteration_results ++ [{ iteration := 1 + 1, patterns_searched := (iterTargets sp 1).1.map (fun kv => kv.1), errors_found := ir1.errors.length, chunks_analyzed := ir1.chunks.length, token_usage := ir1.token_usage }], token_budget := ({ all_errors := st0.all_errors ++ ir0.errors, analyzed_chunks := st0.analyzed_chunks ++ ir0.chunks, iteration_results := st0.iteration_results ++ [{ iteration := 0 + 1, patterns_searched := (iterTargets sp 0).1.map (fun kv => kv.1), errors_found := ir0.errors.length, chunks_analyzed := ir0.chunks.length, token_usage := ir0.token_usage }], token_budget := st0.token_budget - ir0.token_usage } : IterState).token_budget - ir1.token_usage } : IterState).analyzed_chunks ++ ir2.chunks, iteration_results := ({ all_errors := ({ all_errors := st0.all_errors ++ ir0.errors, analyzed_chunks := st0.analyzed_chunks ++ ir0.chunks, iteration_results := st0.iteration_results ++ [{ iteration := 0 + 1, patterns_searched := (iterTargets sp 0).1.map (fun kv => kv.1), errors_found := ir0.errors.length, chunks_analyzed := ir0.chunks.length, token_usage := ir0.token_usage }], token_budget := st0.token_budget - ir0.token_usage } : IterState).all_errors ++ ir1.errors, analyzed_chunks := ({ all_errors := st0.all_errors ++ ir0.errors, analyzed_chunks := st0.analyzed_chunks ++ ir0.chunks, iteration_results := st0.iteration_results ++ [{ iteration := 0 + 1, patterns_searched := (iterTargets sp 0).1.map (fun kv => kv.1), errors_found := ir0.errors.length, chunks_analyzed := ir0.chunks.length, token_usage := ir0.token_usage }], token_budget := st0.token_budget - ir0.token_usage } : IterState).analyzed_chunks ++ ir1.chunks, iteration_results := ({ all_errors := st0.all_errors ++ ir0.errors, analyzed_chunks := st0.analyzed_chunks ++ ir0.chunks, iteration_results := st0.iteration_results ++ [{ iteration := 0 + 1, patterns_searched := (iterTargets sp 0).1.map (fun kv => kv.1), errors_found := ir0.errors.length, chunks_analyzed := ir0.chunks.length, token_usage := ir0.token_usage }], token_budget := st0.token_budget - ir0.token_usage } : IterState).iteration_results ++ [{ iteration := 1 + 1, patterns_searched := (iterTargets sp 1).1.map (fun kv => kv.1), errors_found := ir1.errors.length, chunks_analyzed := ir1.chunks.length, token_usage := ir1.token_usage }], token_budget := ({ all_errors := st0.all_errors ++ ir0.errors, analyzed_chunks := st0.analyzed_chunks ++ ir0.chunks, iteration_results := st0.iteration_results ++ [{ iteration := 0 + 1, patterns_searched := (iterTargets sp 0).1.map (fun kv => kv.1), errors_found := ir0.errors.length, chunks_analyzed := ir0.chunks.length, token_usage := ir0.token_usage }], token_budget := st0.token_budget - ir0.token_usage } : IterState).token_budget - ir1.token_usage } : IterState).iteration_results ++ [{ iteration := 2 + 1, patterns_searched := (iterTargets sp 2).1.map (fun kv => kv.1), errors_found := ir2.errors.length, chunks_analyzed := ir2.chunks.length, token_usage := ir2.token_usage }], token_budget := ({ all_errors := ({ all_errors := st0.all_errors ++ ir0.errors, analyzed_chunks := st0.analyzed_chunks ++ ir0.chunks, iteration_results := st0.iteration_results ++ [{ iteration := 0 + 1, patterns_searched := (iterTargets sp 0).1.map (fun kv => kv.1), errors_found := ir0.errors.length, chunks_analyzed := ir0.chunks.length, token_usage := ir0.token_usage }], token_budget := st0.token_budget - ir0.token_usage } : IterState).all_errors ++ ir1.errors, analyzed_chunks := ({ all_errors := st0.all_errors ++ ir0.errors, analyzed_chunks := st0.analyzed_chunks ++ ir0.chunks, iteration_results := st0.iteration_results ++ [{ iteration := 0 + 1, patterns_searched := (iterTargets sp 0).1.map (fun kv => kv.1), errors_found := ir0.errors.length, chunks_analyzed := ir0.chunks.length, token_usage := ir0.token_usage }], token_budget := st0.token_budget - ir0.token_usage } : IterState).analyzed_chunks ++ ir1.chunks, iteration_results := ({ all_errors := st0.all_errors ++ ir0.errors, analyzed_chunks := st0.analyzed_chunks ++ ir0.chunks, iteration_results := st0.iteration_results ++ [{ iteration := 0 + 1, patterns_searched := (iterTargets sp 0).1.map (fun kv => kv.1), errors_found := ir0.errors.length, chunks_analyzed := ir0.chunks.length, token_usage := ir0.token_usage }], token_budget := st0.token_budget - ir0.token_usage } : IterState).iteration_results ++ [{ iteration := 1 + 1, patterns_searched := (iterTargets sp 1).1.map (fun kv => kv.1), errors_found := ir1.errors.length, chunks_analyzed := ir1.chunks.length, token_usage := ir1.token_usage }], token_budget := ({ all_errors := st0.all_errors ++ ir0.errors, analyzed_chunks := st0.analyzed_chunks ++ ir0.chunks, iteration_results := st0.iteration_results ++ [{ iteration := 0 + 1, patterns_searched := (iterTargets sp 0).1.map (fun kv => kv.1), errors_found := ir0.errors.length, chunks_analyzed := ir0.chunks.length, token_usage := ir0.token_usage }], token_budget := st0.token_budget - ir0.token_usage } : IterState).token_budget - ir1.token_usage } : IterState).token_budget - ir2.token_usage } : IterState) := by
      rw [iterLoop_succ_some a docs sq sp 2 0 ({ all_errors := ({ all_errors := st0.all_errors ++ ir0.errors, analyzed_chunks := st0.analyzed_chunks ++ ir0.chunks, iteration_results := st0.iteration_results ++ [{ iteration := 0 + 1, patterns_searched := (iterTargets sp 0).1.map (fun kv => kv.1), errors_found := ir0.errors.length, chunks_analyzed := ir0.chunks.length, token_usage := ir0.token_usage }], token_budget := st0.token_budget - ir0.token_usage } : IterState).all_errors ++ ir1.errors, analyzed_chunks := ({ all_errors := st0.all_errors ++ ir0.errors, analyzed_chunks := st0.analyzed_chunks ++ ir0.chunks, iteration_results := st0.iteration_results ++ [{ iteration := 0 + 1, patterns_searched := (iterTargets sp 0).1.map (fun kv => kv.1), errors_found := ir0.errors.length, chunks_analyzed := ir0.chunks.length, token_usage := ir0.token_usage }], token_budget := st0.token_budget - ir0.token_usage } : IterState).analyzed_chunks ++ ir1.chunks, iteration_results := ({ all_errors := st0.all_errors ++ ir0.errors, analyzed_chunks := st0.analyzed_chunks ++ ir0.chunks, iteration_results := st0.iteration_results ++ [{ iteration := 0 + 1, patterns_searched := (iterTargets sp 0).1.map (fun kv => kv.1), errors_found := ir0.errors.length, chunks_analyzed := ir0.chunks.length, token_usage := ir0.token_usage }], token_budget := st0.token_budget - ir0.token_usage } : IterState).iteration_results ++ [{ iteration := 1 + 1, patterns_searched := (iterTargets sp 1).1.map (fun kv => kv.1), errors_found := ir1.errors.length, chunks_analyzed := ir1.chunks.length, token_usage := ir1.token_usage }], token_budget := ({ all_errors := st0.all_errors ++ ir0.errors, analyzed_chunks := st0.analyzed_chunks ++ ir0.chunks, iteration_results := st0.iteration_results ++ [{ iteration := 0 + 1, patterns_searched := (iterTargets sp 0).1.map (fun kv => kv.1), errors_found := ir0.errors.length, chunks_analyzed := ir0.chunks.length, token_usage := ir0.token_usage }], token_budget := st0.token_budget - ir0.token_usage } : IterState).token_budget - ir1.token_usage } : IterState) ir2 hai2]
      rw [if_neg (by rintro ⟨-, hc⟩; omega)]
      split
      · rfl
      · exact iterLoop_zero a docs sq sp 3 _
    rw [e1, e2, e3]
  · show ((({ all_errors := ({ all_errors := ({ all_errors := st0.all_errors ++ ir0.errors, analyzed_chunks := st0.analyzed_chunks ++ ir0.chunks, iteration_results := st0.iteration_results ++ [{ iteration := 0 + 1, patterns_searched := (iterTargets sp 0).1.map (fun kv => kv.1), errors_found := ir0.errors.length, chunks_analyzed := ir0.chunks.length, token_usage := ir0.token_usage }], token_budget := st0.token_budget - ir0.token_usage } : IterState).all_errors ++ ir1.errors, analyzed_chunks := ({ all_errors := st0.all_errors ++ ir0.errors, analyzed_chunks := st0.analyzed_chunks ++ ir0.chunks, iteration_results := st0.iteration_results ++ [{ iteration := 0 + 1, patterns_searched := (iterTargets sp 0).1.map (fun kv => kv.1), errors_found := ir0.errors.length, chunks_analyzed := ir0.chunks.length, token_usage := ir0.token_usage }], token_budget := st0.token_budget - ir0.token_usage } : IterState).analyzed_chunks ++ ir1.chunks, iteration_results := ({ all_errors := st0.all_errors ++ ir0.errors, analyzed_chunks := st0.analyzed_chunks ++ ir0.chunks, iteration_results := st0.iteration_results ++ [{ iteration := 0 + 1, patterns_searched := (iterTargets sp 0).1.map (fun kv => kv.1), errors_found := ir0.errors.length, chunks_analyzed := ir0.chunks.length, token_usage := ir0.token_usage }], token_budget := st0.token_budget - ir0.token_usage } : IterState).iteration_results ++ [{ iteration := 1 + 1, patterns_searched := (iterTargets sp 1).1.map (fun kv => kv.1), errors_found := ir1.errors.length, chunks_analyzed := ir1.chunks.length, token_usage := ir1.token_usage }], token_budget := ({ all_errors := st0.all_errors ++ ir0.errors, analyzed_chunks := st0.analyzed_chunks ++ ir0.chunks, iteration_results := st0.iteration_results ++ [{ iteration := 0 + 1, patterns_searched := (iterTargets sp 0).1.map (fun kv => kv.1), errors_found := ir0.errors.length, chunks_analyzed := ir0.chunks.length, token_usage := ir0.token_usage }], token_budget := st0.token_budget - ir0.token_usage } : IterState).token_budget - ir1.token_usage } : IterState).all_errors ++ ir2.errors, analyzed_chunks := ({ all_errors := ({ all_errors := st0.all_errors ++ ir0.errors, analyzed_chunks := st0.analyzed_chunks ++ ir0.chunks, iteration_results := st0.iteration_results ++ [{ iteration := 0 + 1, patterns_searched := (iterTargets sp 0).1.map (fun kv => kv.1), errors_found := ir0.errors.length, chunks_analyzed := ir0.chunks.length, token_usage := ir0.token_usage }], token_budget := st0.token_budget - ir0.token_usage } : IterState).all_errors ++ ir1.errors, analyzed_chunks := ({ all_errors := st0.all_errors ++ ir0.errors, analyzed_chunks := st0.analyzed_chunks ++ ir0.chunks, iteration_results := st0.iteration_results ++ [{ iteration := 0 + 1, patterns_searched := (iterTargets sp 0).1.map (fun kv => kv.1), errors_found := ir0.errors.length, chunks_analyzed := ir0.chunks.length, token_usage := ir0.token_usage }], token_budget := st0.token_budget - ir0.token_usage } : IterState).analyzed_chunks ++ ir1.chunks, iteration_results := ({ all_errors := st0.all_errors ++ ir0.errors, analyzed_chunks := st0.analyzed_chunks ++ ir0.chunks, iteration_results := st0.iteration_results ++ [{ iteration := 0 + 1, patterns_searched := (iterTargets sp 0).1.map (fun kv => kv.1), errors_found := ir0.errors.length, chunks_analyzed := ir0.chunks.length, token_usage := ir0.token_usage }], token_budget := st0.token_budget - ir0.token_usage } : IterState).iteration_results ++ [{ iteration := 1 + 1, patterns_searched := (iterTargets sp 1).1.map (fun kv => kv.1), errors_found := ir1.errors.length, chunks_analyzed := ir1.chunks.length, token_usage := ir1.token_usage }], token_budget := ({ all_errors := st0.all_errors ++ ir0.errors, analyzed_chunks := st0.analyzed_chunks ++ ir0.chunks, iteration_results := st0.iteration_results ++ [{ iteration := 0 + 1, patterns_searched := (iterTargets sp 0).1.map (fun kv => kv.1), errors_found := ir0.errors.length, chunks_analyzed := ir0.chunks.length, token_usage := ir0.token_usage }], token_budget := st0.token_budget - ir0.token_usage } : IterState).token_budget - ir1.token_usage } : IterState).analyzed_chunks ++ ir2.chunks, iteration_results := ({ all_errors := ({ all_errors := st0.all_errors ++ ir0.errors, analyzed_chunks := st0.analyzed_chunks ++ ir0.chunks, iteration_results := st0.iteration_results ++ [{ iteration := 0 + 1, patterns_searched := (iterTargets sp 0).1.map (fun kv => kv.1), errors_found := ir0.errors.length, chunks_analyzed := ir0.chunks.length, token_usage := ir0.token_usage }], token_budget := st0.token_budget - ir0.token_usage } : IterState).all_errors ++ ir1.errors, analyzed_chunks := ({ all_errors := st0.all_errors ++ ir0.errors, analyzed_chunks := st0.analyzed_chunks ++ ir0.chunks, iteration_results := st0.iteration_results ++ [{ iteration := 0 + 1, patterns_searched := (iterTargets sp 0).1.map (fun kv => kv.1), errors_found := ir0.errors.length, chunks_analyzed := ir0.chunks.length, token_usage := ir0.token_usage }], token_budget := st0.token_budget - ir0.token_usage } : IterState).analyzed_chunks ++ ir1.chunks, iteration_results := ({ all_errors := st0.all_errors ++ ir0.errors, analyzed_chunks := st0.analyzed_chunks ++ ir0.chunks, iteration_results := st0.iteration_results ++ [{ iteration := 0 + 1, patterns_searched := (iterTargets sp 0).1.map (fun kv => kv.1), errors_found := ir0.errors.length, chunks_analyzed := ir0.chunks.length, token_usage := ir0.token_usage }], token_budget := st0.token_budget - ir0.token_usage } : IterState).iteration_results ++ [{ iteration := 1 + 1, patterns_searched := (iterTargets sp 1).1.map (fun kv => kv.1), errors_found := ir1.errors.length, chunks_analyzed := ir1.chunks.length, token_usage := ir1.token_usage }], token_budget := ({ all_errors := st0.all_errors ++ ir0.errors, analyzed_chunks := st0.analyzed_chunks ++ ir0.chunks, iteration_results := st0.iteration_results ++ [{ iteration := 0 + 1, patterns_searched := (iterTargets sp 0).1.map (fun kv => kv.1), errors_found := ir0.errors.length, chunks_analyzed := ir0.chunks.length, token_usage := ir0.token_usage }], token_budget := st0.token_budget - ir0.token_usage } : IterState).token_budget - ir1.token_usage } : IterState).iteration_results ++ [{ iteration := 2 + 1, patterns_searched := (iterTargets sp 2).1.map (fun kv => kv.1), errors_found := ir2.errors.length, chunks_analyzed := ir2.chunks.length, token_usage := ir2.token_usage }], token_budget := ({ all_errors := ({ all_errors := st0.all_errors ++ ir0.errors, analyzed_chunks := st0.analyzed_chunks ++ ir0.chunks, iteration_results := st0.iteration_results ++ [{ iteration := 0 + 1, patterns_searched := (iterTargets sp 0).1.map (fun kv => kv.1), errors_found := ir0.errors.length, chunks_analyzed := ir0.chunks.length, token_usage := ir0.token_usage }], token_budget := st0.token_budget - ir0.token_usage } : IterState).all_errors ++ ir1.errors, analyzed_chunks := ({ all_errors := st0.all_errors ++ ir0.errors, analyzed_chunks := st0.analyzed_chunks ++ ir0.chunks, iteration_results := st0.iteration_results ++ [{ iteration := 0 + 1, patterns_searched := (iterTargets sp 0).1.map (fun kv => kv.1), errors_found := ir0.errors.length, chunks_analyzed := ir0.chunks.length, token_usage := ir0.token_usage }], token_budget := st0.token_budget - ir0.token_usage } : IterState).analyzed_chunks ++ ir1.chunks, iteration_results := ({ all_errors := st0.all_errors ++ ir0.errors, analyzed_chunks := st0.analyzed_chunks ++ ir0.chunks, iteration_results := st0.iteration_results ++ [{ iteration := 0 + 1, patterns_searched := (iterTargets sp 0).1.map (fun kv => kv.1), errors_found := ir0.errors.length, chunks_analyzed := ir0.chunks.length, token_usage := ir0.token_usage }], token_budget := st0.token_budget - ir0.token_usage } : IterState).iteration_results ++ [{ iteration := 1 + 1, patterns_searched := (iterTargets sp 1).1.map (fun kv => kv.1), errors_found := ir1.errors.length, chunks_analyzed := ir1.chunks.length, token_usage := ir1.token_usage }], token_budget := ({ all_errors := st0.all_errors ++ ir0.errors, analyzed_chunks := st0.analyzed_chunks ++ ir0.chunks, iteration_results := st0.iteration_results ++ [{ iteration := 0 + 1, patterns_searched := (iterTargets sp 0).1.map (fun kv => kv.1), errors_found := ir0.errors.length, chunks_analyzed := ir0.chunks.length, token_usage := ir0.token_usage }], token_budget := st0.token_budget - ir0.token_usage } : IterState).token_budget - ir1.token_usage } : IterState).token_budget - ir2.token_usage } : IterState)).iteration_results).length = 3
    rw [hst0]
    simp

/-! ### Chunk-boundary equivalence (claim C8) -/

theorem windowListF_eq_groupLinesF (step : ℕ) :
    ∀ (fuel : ℕ) (lines : List Str),
      windowListF fuel step lines = (groupLinesF fuel step lines).map (joinWith ['\n']) := by
  intro fuel
  induction fuel with
  | zero => intro lines; rfl
  | succ n ih =>
    intro lines
    cases lines with
    | nil => cases step <;> rfl
    | cons l rest =>
      cases step with
      | zero => rfl
      | succ st =>
        rw [windowListF, groupLinesF, List.map_cons, ih]

theorem windowList_eq_groupLines (step : ℕ) (lines : List Str) :
    windowList step lines = (groupLines step lines).map (joinWith ['\n']) := by
  unfold windowList groupLines
  exact windowListF_eq_groupLinesF step (lines.length + 1) lines

theorem emitWindows_proj (pats : Catalog) (sq : Option String) (fn lt : String) :
    ∀ (ws : List Str) (cid : ℕ),
      ((emitWindows pats sq fn lt ws cid).1).map (fun c => (c.file_name, c.content)) =
        (ws.filter (fun w => !isBlank w)).map (fun w => (fn, w)) := by
  intro ws
  induction ws with
  | nil => intro cid; rfl
  | cons w rest ih =>
    intro cid
    by_cases hb : isBlank w
    · simp [emitWindows, hb, List.filter_cons, ih cid]
    · simp [emitWindows, hb, List.filter_cons, ih (cid + 1)]

theorem emitDocs_proj (pats : Catalog) (sq : Option String) (step : ℕ) :
    ∀ (docs : List (String × String)) (cid : ℕ),
      (emitDocs pats sq step docs cid).map (fun c => (c.file_name, c.content)) =
        chunkBoundaries docs step := by
  intro docs
  induction docs with
  | nil => intro cid; rfl
  | cons d rest ih =>
    intro cid
    obtain ⟨fn, content⟩ := d
    have h1 := emitWindows_proj pats sq fn (determine_log_type fn)
      (windowList step (splitNl content.data)) cid
    have hcb : chunkBoundaries ((fn, content) :: rest) step =
        ((((groupLines step (splitNl content.data)).map (joinWith ['\n'])).filter
          (fun w => !isBlank w)).map (fun w => (fn, w))) ++ chunkBoundaries rest step := by
      unfold chunkBoundaries
      rw [List.flatMap_cons]
    simp only [emitDocs, List.map_append]
    rw [h1, ih, hcb, ← windowList_eq_groupLines]

/-! ## Claim theorems -/

set_option maxRecDepth 40000 in
/-- C1: the claim says that after the truncation pass the estimated token
count of the returned text is at most `max_token_limit`.  The code cuts
the text to `int(limit / 1.3)` words but then appends a 9-word truncation
notice, so the returned text always estimates above the limit: at limit
100, a 200-word input (estimate 260, so the pass applies) truncates to a
text whose estimate is 110.5 > 100. -/
theorem truncation_overshoots_token_budget :
    Q.blt (Q.ofNat 100) (estimate_tokens c1_text) = true ∧
    Q.qeq (estimate_tokens (truncate_to_token_limit 100 c1_text)) (q 221 2) = true ∧
    Q.blt (Q.ofNat 100) (estimate_tokens (truncate_to_token_limit 100 c1_text)) = true := by
  decide

set_option maxRecDepth 200000 in
/-- C2: the claim says `error_summary` is sorted by severity rank
descending (critical=4 > high=3 > medium=2 > low=1), then frequency.  The
final sort of `analyze_logs_iteratively` compares the severity *strings*,
and `"high" > "critical"` lexicographically: on a document matching both
`memory_errors` (critical) and `spark_sql_errors` (high), the returned
list is `["high", "critical"]` although the rank of `"high"` is below the
rank of `"critical"`. -/
theorem severity_string_sort_misorders :
    ((analyze_logs_iteratively defaultAnalyzer c2_docs none 3).map
      (fun r => r.error_summary.map (fun e => e.severity))) = some ["high", "critical"] ∧
    (severity_priority.lookup "high").getD 0 < (severity_priority.lookup "critical").getD 0 := by
  constructor
  · decide
  · decide

set_option maxRecDepth 400000 in
/-- C3 counterexample: a documents map containing a `FATAL ERROR` line,
run with `max_iterations = 3` under the default configuration, records
exactly 3 iterations — not 1 as the claim states.  (`FATAL ERROR` matches
only the high-severity `application_errors` and medium-severity
`critical_keywords` categories, so the critical early exit never fires.) -/
theorem fatal_error_records_three_not_one :
    (c3_docs.any (fun d => isSubstring ("FATAL ERROR".data) d.2.data)) = true ∧
    ((analyze_logs_iteratively defaultAnalyzer c3_docs none 3).map
      (fun r => r.total_iterations)) = some 3 := by
  refine ⟨by decide, by decide⟩

set_option maxRecDepth 400000 in
/-- C3 (amended): for every documents map containing a `FATAL ERROR`
line, if no `memory_errors` (the only critical category reachable in
round 1) pattern matches any line window, the chunk size is at least 100
and the token limit at least 8000 (the default is 100000), then
`analyze_logs_iteratively` with `max_iterations = 3` records exactly 3
iterations: `FATAL ERROR` never triggers the round-1 critical early exit,
and the token budget cannot drop below 1000 in two rounds. -/
theorem fatal_error_three_iterations (limit cs : ℕ) (docs : List (String × String))
    (sq : Option String) (hcs : 100 ≤ cs) (hlim : 8000 ≤ limit)
    (_hfatal : (docs.any (fun d => isSubstring ("FATAL ERROR".data) d.2.data)) = true)
    (hmem : ∀ w ∈ allWindows docs (cs / 100), ∀ p ∈ catalogMemoryPatterns, countPat p w = 0) :
    ((analyze_logs_iteratively (mkLogAnalyzer limit cs) docs sq 3).map
      (fun r => r.total_iterations)) = some 3 := by
  obtain ⟨st, hst, hlen⟩ := iterCore_three_rounds limit cs docs sq hcs hlim hmem
  unfold analyze_logs_iteratively
  rw [hst]
  simp only [Option.map_some']
  rw [Option.some.injEq]
  exact hlen

/-- C3 witness: the amended theorem applied to the concrete `FATAL
ERROR` scenario document under the default configuration. -/
theorem fatal_error_three_iterations_witness :
    ((100 ≤ 10000 ∧ 8000 ≤ 100000 ∧
      (c3_docs.any (fun d => isSubstring ("FATAL ERROR".data) d.2.data)) = true) ∧
     (∀ w ∈ allWindows c3_docs (10000 / 100), ∀ p ∈ catalogMemoryPatterns, countPat p w = 0)) ∧
    ((analyze_logs_iteratively (mkLogAnalyzer 100000 10000) c3_docs none 3).map
      (fun r => r.total_iterations)) = some 3 := by
  have hmem : ∀ w ∈ allWindows c3_docs (10000 / 100),
      ∀ p ∈ catalogMemoryPatterns, countPat p w = 0 := by decide
  have hfatal : (c3_docs.any (fun d => isSubstring ("FATAL ERROR".data) d.2.data)) = true := by
    decide
  exact ⟨⟨⟨by norm_num, by norm_num, hfatal⟩, hmem⟩,
    fatal_error_three_iterations 100000 10000 c3_docs none (by norm_num) (by norm_num)
      hfatal hmem⟩

set_option maxRecDepth 40000 in
/-- C4: the claim says the entry points never raise for every configured
chunk size because lines-per-chunk is derived with a minimum of 1.  The
code has no such minimum: with `chunk_size = 50`, `chunk_size // 100 = 0`
and `range(0, len(lines), 0)` raises a `ValueError` that escapes both
`analyze_logs` and `analyze_logs_iteratively` (modelled as `none`). -/
theorem chunk_size_below_100_raises :
    (analyze_logs (mkLogAnalyzer 100000 50) [("stderr", "log line")] none).isSome = false ∧
    (analyze_logs_iteratively (mkLogAnalyzer 100000 50) [("stderr", "log line")] none 3).isSome
      = false := by
  decide

set_option maxRecDepth 1000000 in
/-- C5 counterexample: with chunk size 100 and a ten-line document whose
last line matches only `database_errors` (searched only in round 3), the
returned `prioritized_chunks` are 15 chunks that all score below 5/2,
while the chunks analyzed across the iterations include one scoring
exactly 5/2 — so the returned list does not contain the top 15 chunks by
`priority_score`. -/
theorem prioritized_chunks_not_top15 :
    ((analyze_logs_iteratively chunk100Analyzer c5_docs none 3).map (fun r =>
      (r.prioritized_chunks.length,
       r.prioritized_chunks.all (fun c => Q.blt c.priority_score (q 5 2))))) =
        some (15, true) ∧
    ((iterCore chunk100Analyzer c5_docs none 3).map (fun st =>
      (st.analyzed_chunks.length,
       st.analyzed_chunks.any (fun c => Q.qeq c.priority_score (q 5 2))))) =
        some (25, true) := by
  constructor
  · decide
  · decide

set_option maxRecDepth 400000 in
/-- C5 (amended): `prioritized_chunks` is the first 15 elements of the
per-iteration concatenation of analyzed chunks (each round's top-scored
chunks under that round's catalog, capped at 5/10/20) — not the global
top 15 by `priority_score`. -/
theorem prioritized_chunks_are_accumulation_prefix (a : LogAnalyzer)
    (docs : List (String × String)) (sq : Option String) (mi : ℕ) :
    (analyze_logs_iteratively a docs sq mi).map (fun r => r.prioritized_chunks) =
      (iterCore a docs sq mi).map (fun st => st.analyzed_chunks.take 15) := by
  unfold analyze_logs_iteratively
  cases iterCore a docs sq mi <;> simp

/-- C6: on content where no catalog pattern matches and with no search
term, `_find_error_indicators` returns the empty indicator list and
`_calculate_priority_score` returns exactly the role weight of the log
type (stderr=1.0, driver=0.9, log4j=0.8, executor=0.7, stdout=0.3,
unknown=0.1) plus the generic-keyword contributions only. -/
theorem no_match_score_is_role_weight_plus_keywords (content : Str) (log_type : String)
    (h : ∀ kv ∈ error_patterns, ∀ p ∈ kv.2.patterns, countPat p content = 0) :
    find_error_indicators error_patterns content = [] ∧
    calculate_priority_score error_patterns content log_type none =
      roleWeight log_type + keywordScore content ∧
    roleWeight "stderr" = q 10 10 ∧ roleWeight "driver" = q 9 10 ∧
    roleWeight "log4j" = q 8 10 ∧ roleWeight "executor" = q 7 10 ∧
    roleWeight "stdout" = q 3 10 ∧ roleWeight "unknown" = q 1 10 := by
  refine ⟨find_error_indicators_nil _ _ h, ?_, by decide, by decide, by decide, by decide,
    by decide, by decide⟩
  unfold calculate_priority_score
  rw [patCatalogScore_zero _ _ h]
  have hq : queryScore none content = q 0 1 := rfl
  rw [hq, Q.add_zero_lit, Q.add_zero_lit]

/-- C6 witness: the theorem applied to the pattern-free content
`"hello world"` on a stderr chunk. -/
theorem no_match_score_witness :
    (∀ kv ∈ error_patterns, ∀ p ∈ kv.2.patterns, countPat p ("hello world".data) = 0) ∧
    (find_error_indicators error_patterns ("hello world".data) = [] ∧
     calculate_priority_score error_patterns ("hello world".data) "stderr" none =
       roleWeight "stderr" + keywordScore ("hello world".data) ∧
     roleWeight "stderr" = q 10 10 ∧ roleWeight "driver" = q 9 10 ∧
     roleWeight "log4j" = q 8 10 ∧ roleWeight "executor" = q 7 10 ∧
     roleWeight "stdout" = q 3 10 ∧ roleWeight "unknown" = q 1 10) := by
  have h : ∀ kv ∈ error_patterns, ∀ p ∈ kv.2.patterns, countPat p ("hello world".data) = 0 := by
    decide
  exact ⟨h, no_match_score_is_role_weight_plus_keywords ("hello world".data) "stderr" h⟩

set_option maxRecDepth 40000 in
/-- C7: deduplicating the concatenation of two summary lists that each
contain exactly one entry with key `k = (error_type, description)` yields
exactly one entry with that key, whose frequency is the sum of the two
entries' frequencies — never two separate entries. -/
theorem dedup_merges_same_key_frequencies (l1 l2 : List ErrorSummary) (e1 e2 : ErrorSummary)
    (k : String × String)
    (h1 : l1.filter (fun e => keyOf e = k) = [e1])
    (h2 : l2.filter (fun e => keyOf e = k) = [e2]) :
    (deduplicate_errors (l1 ++ l2)).countP (fun e => keyOf e = k) = 1 ∧
    getFreq (deduplicate_errors (l1 ++ l2)) k = e1.frequency + e2.frequency := by
  have hd : deduplicate_errors (l1 ++ l2) = dedupGo [] [] (l1 ++ l2) := rfl
  constructor
  · rw [hd, dedupGo_countKey, countKey_firstOccurrences]
    have he1 : e1 ∈ l1.filter (fun e => decide (keyOf e = k)) := by
      rw [h1]
      exact List.mem_singleton.mpr rfl
    obtain ⟨hm, hp⟩ := List.mem_filter.mp he1
    have hany : ((l1 ++ l2).any (fun e => decide (keyOf e = k))) = true :=
      List.any_eq_true.mpr ⟨e1, List.mem_append_left _ hm, hp⟩
    simp [hany]
  · rw [hd, dedupGo_getFreq _ _ _ _ (by simp), getFreq_append]
    have g1 : getFreq l1 k = e1.frequency := by
      unfold getFreq
      rw [h1]
      simp
    have g2 : getFreq l2 k = e2.frequency := by
      unfold getFreq
      rw [h2]
      simp
    rw [g1, g2]
    have g0 : getFreq ([] : List ErrorSummary) k = 0 := rfl
    rw [g0]
    omega

/-- C7 witness: two single-entry lists for the `memory_errors` key with
frequencies 2 and 3 merge into one entry of frequency 5. -/
theorem dedup_merges_same_key_frequencies_witness :
    (([c7_entry1].filter (fun e => keyOf e = c7_key) = [c7_entry1]) ∧
     ([c7_entry2].filter (fun e => keyOf e = c7_key) = [c7_entry2])) ∧
    ((deduplicate_errors ([c7_entry1] ++ [c7_entry2])).countP (fun e => keyOf e = c7_key) = 1 ∧
     getFreq (deduplicate_errors ([c7_entry1] ++ [c7_entry2])) c7_key =
       c7_entry1.frequency + c7_entry2.frequency) := by
  exact ⟨⟨by decide, by decide⟩,
    dedup_merges_same_key_frequencies [c7_entry1] [c7_entry2] c7_entry1 c7_entry2 c7_key
      (by decide) (by decide)⟩

/-- C8: chunk boundaries are a pure function of the document texts and
the lines-per-chunk value alone: for chunk sizes ≥ 100 the chunker
returns normally, and the emitted (file name, window content) sequence —
windows in document-then-position order with whitespace-only windows
dropped — equals the reference `chunkBoundaries`, independent of the
catalog and the search term, hence identical across repeated runs on
identical input. -/
theorem chunk_boundaries_deterministic (a : LogAnalyzer) (docs : List (String × String))
    (sq : Option String) (h : 100 ≤ a.chunk_size) :
    (chunk_and_prioritize_logs a docs sq).isSome = true ∧
    (emitDocs a.error_patterns sq (a.chunk_size / 100) docs 0).map
        (fun c => (c.file_name, c.content)) =
      chunkBoundaries docs (a.chunk_size / 100) := by
  constructor
  · unfold chunk_and_prioritize_logs
    by_cases hd : docs.isEmpty
    · rw [if_pos hd]
      rfl
    · have hstep : ¬(a.chunk_size / 100 = 0) := by
        have h1 : 1 ≤ a.chunk_size / 100 := (Nat.one_le_div_iff (by norm_num)).mpr h
        omega
      rw [if_neg hd, if_neg hstep]
      rfl
  · exact emitDocs_proj a.error_patterns sq (a.chunk_size / 100) docs 0

/-- C8 witness: the theorem applied to a two-document input (one with an
empty window) under the default configuration with a search term. -/
theorem chunk_boundaries_deterministic_witness :
    (100 ≤ defaultAnalyzer.chunk_size) ∧
    ((chunk_and_prioritize_logs defaultAnalyzer [("stderr", "a\n\nb"), ("run.log", "x")]
        (some "oom")).isSome = true ∧
     (emitDocs defaultAnalyzer.error_patterns (some "oom") (defaultAnalyzer.chunk_size / 100)
        [("stderr", "a\n\nb"), ("run.log", "x")] 0).map (fun c => (c.file_name, c.content)) =
       chunkBoundaries [("stderr", "a\n\nb"), ("run.log", "x")]
         (defaultAnalyzer.chunk_size / 100)) := by
  exact ⟨by norm_num [defaultAnalyzer, mkLogAnalyzer],
    chunk_boundaries_deterministic defaultAnalyzer [("stderr", "a\n\nb"), ("run.log", "x")]
      (some "oom") (by norm_num [defaultAnalyzer, mkLogAnalyzer])⟩

/-- C9: `_analyze_iteration` leaves the analyzer's state — in particular
its `error_patterns` catalog — exactly as it was, whether the body
returns normally or propagates the modelled exception: the `finally:`
block restores the original catalog unconditionally, so the per-round
narrowing is never observable after the call. -/
theorem analyze_iteration_restores_error_patterns (a : LogAnalyzer)
    (docs : List (String × String)) (sq : Option String) (target : Catalog)
    (chunk_limit : ℕ) (token_budget : Q) :
    (analyze_iteration_st a docs sq target chunk_limit token_budget).2 = a := rfl

/-- C10: deduplication only ever changes the `frequency` field: the
output's entries are, apart from frequency, exactly the first occurrence
of each key in first-seen order — the severity, description, suggested
solution and relevant logs of a later duplicate (including its
`relevant_logs`) are discarded. -/
theorem dedup_keeps_first_occurrence_shape (errors : List ErrorSummary) :
    (deduplicate_errors errors).map shapeOf = (firstOccurrences [] errors).map shapeOf := by
  have hd : deduplicate_errors errors = dedupGo [] [] errors := rfl
  rw [hd, dedupGo_shapes]
  simp
